import Mathlib

/-!
Verification of the Body-Scan-App geometric reconstruction core.

This file gives a shallow embedding of the C++ sources
  app/src/main/cpp/src/mesh_generator.cpp
  app/src/main/cpp/src/multi_view_3d.cpp
  app/src/main/jni/jni_bridge.cpp
and proves properties of the embedded functions.

Modelling conventions:
- C++ `float` arithmetic is modelled exactly: keypoint coordinates and all
  branch-deciding arithmetic are rationals; quantities produced by square
  roots and trigonometric functions live in the reals.  NaN and infinity do
  not exist in this idealisation; the NaN/infinity clauses of the source's
  validity checks are therefore always false in the model and are noted
  where they occur.
- Calls into external libraries (OpenCV's cv::fitEllipse and
  cv::triangulatePoints, IEEE-754 byte serialisation of floats, and
  iostream float formatting) are not code of this repository; they are
  abstracted as explicit function parameters of the embedding, so every
  theorem quantifies over (or is witnessed at) a concrete choice of them.
- The process-wide `static` variables of MultiView3D::triangulate are made
  an explicit state value threaded in and out of the function.
-/

noncomputable section

open Classical

/-- Planar point with rational coordinates, modelling cv::Point2f. -/
structure Pt2 where
  x : ℚ
  y : ℚ
deriving DecidableEq, Repr

/-- Spatial point with rational coordinates, modelling cv::Point3f. -/
structure Pt3 where
  x : ℚ
  y : ℚ
  z : ℚ
deriving DecidableEq, Repr

/-- Zero 3D point, modelling cv::Point3f(0,0,0). -/
def Pt3.zero : Pt3 := ⟨0, 0, 0⟩

/-- Zero 2D point. -/
def Pt2.zero : Pt2 := ⟨0, 0⟩

/-- Spatial point with real coordinates: the vertex/normal buffers of the
mesh generator contain values produced by sin/cos/sqrt, so they live in ℝ.
A cv::Point3f pushed as three consecutive floats onto a flat float vector
is modelled as one PtR entry. -/
structure PtR where
  x : ℝ
  y : ℝ
  z : ℝ

/-- Coercion of a rational keypoint into the real-valued geometry space. -/
def Pt3.toR (p : Pt3) : PtR := ⟨(p.x : ℝ), (p.y : ℝ), (p.z : ℝ)⟩

namespace MeshGen

/-- Embeds calculateEllipseCircumference (mesh_generator.cpp lines 18-22):
Ramanujan's approximation for the circumference of an ellipse with
semi-axes a and b.  The intermediate h is float arithmetic on the
inputs, modelled in exact rationals (division by zero yields 0, matching
Lean's convention; the float code would produce NaN there). -/
def calculateEllipseCircumference (a b : ℚ) : ℝ :=
  let h : ℚ := ((a - b) / (a + b)) ^ 2
  Real.pi * ((a : ℝ) + (b : ℝ)) *
    (1 + (3 * (h : ℝ)) / (10 + Real.sqrt (4 - 3 * (h : ℝ))))

/-- Embeds fitEllipseAtY (mesh_generator.cpp lines 25-45).  The OpenCV
least-squares ellipse fit cv::fitEllipse is external library code and is
abstracted by the parameter fit, which returns the fitted RotatedRect's
(size.width, size.height). -/
def fitEllipseAtY (fit : List Pt2 → ℚ × ℚ) (kpts3d : List Pt3)
    (targetY tolerance : ℚ) : ℝ :=
  let points2d : List Pt2 :=
    (kpts3d.filter (fun pt => |pt.y - targetY| < tolerance)).map
      (fun pt => ⟨pt.x, pt.z⟩)
  if points2d.length < 5 then 0
  else
    let e := fit points2d
    calculateEllipseCircumference (e.1 / 2) (e.2 / 2)

/-- Points of the left-side band at the given level (mesh_generator.cpp
lines 94-103, and the analogous loops at 130-135): y within tolerance of
the band centre and x < 0, projected to the XZ plane.  The source also
accumulates an unused running centre coordinate, omitted here. -/
def leftSidePoints (kpts3d : List Pt3) (bandY tolerance : ℚ) : List Pt2 :=
  (kpts3d.filter (fun pt => |pt.y - bandY| < tolerance ∧ pt.x < 0)).map
    (fun pt => ⟨pt.x, pt.z⟩)

/-- Points of the right-side band at the given level (mesh_generator.cpp
lines 114-119 and 146-151): y within tolerance and x > 0. -/
def rightSidePoints (kpts3d : List Pt3) (bandY tolerance : ℚ) : List Pt2 :=
  (kpts3d.filter (fun pt => |pt.y - bandY| < tolerance ∧ 0 < pt.x)).map
    (fun pt => ⟨pt.x, pt.z⟩)

/-- Circumference of a side region (mesh_generator.cpp lines 104-111 etc.):
zero unless at least 5 points fall in the region, otherwise the Ramanujan
circumference of the fitted ellipse's semi-axes. -/
def sideCircumference (fit : List Pt2 → ℚ × ℚ) (pts : List Pt2) : ℝ :=
  if 5 ≤ pts.length then
    let e := fit pts
    calculateEllipseCircumference (e.1 / 2) (e.2 / 2)
  else 0

/-- Minimum y coordinate over a keypoint list (mesh_generator.cpp lines
56-62, sentinel-initialised scan; for the nonempty lists on which it is
used this equals the fold below). -/
def minYOf (kpts3d : List Pt3) : ℚ :=
  (kpts3d.map Pt3.y).foldl min ((kpts3d.map Pt3.y).headD 0)

/-- Maximum y coordinate over a keypoint list (mesh_generator.cpp lines
56-62). -/
def maxYOf (kpts3d : List Pt3) : ℚ :=
  (kpts3d.map Pt3.y).foldl max ((kpts3d.map Pt3.y).headD 0)

/-- Embeds computeCircumferences (mesh_generator.cpp lines 47-167),
measurement Strategy A.  Returns the 7-slot vector
[waist, chest, hips, leftThigh, rightThigh, leftArm, rightArm].
The source's unused headBottomY constant and its trailing
pad-to-7 loop (the list already has 7 entries) are noted but not
re-created.  fit abstracts cv::fitEllipse as in fitEllipseAtY. -/
def computeCircumferences (fit : List Pt2 → ℚ × ℚ) (kpts3d : List Pt3) :
    List ℝ :=
  if kpts3d = [] ∨ kpts3d.length < 10 then List.replicate 7 0
  else
    let minY := minYOf kpts3d
    let maxY := maxYOf kpts3d
    let height := maxY - minY
    if height ≤ 0 then List.replicate 7 0
    else
      let chestY := minY + height * (25 / 100)
      let waistY := minY + height * (50 / 100)
      let hipY := minY + height * (60 / 100)
      let thighY := minY + height * (70 / 100)
      let armY := minY + height * (30 / 100)
      let tolerance := height * (5 / 100)
      let waist := fitEllipseAtY fit kpts3d waistY tolerance
      let chest := fitEllipseAtY fit kpts3d chestY tolerance
      let hips := fitEllipseAtY fit kpts3d hipY tolerance
      let leftThigh := sideCircumference fit (leftSidePoints kpts3d thighY tolerance)
      let rightThigh := sideCircumference fit (rightSidePoints kpts3d thighY tolerance)
      let leftArm := sideCircumference fit (leftSidePoints kpts3d armY tolerance)
      let rightArm := sideCircumference fit (rightSidePoints kpts3d armY tolerance)
      [if 0 < waist then waist else 0,
       if 0 < chest then chest else 0,
       if 0 < hips then hips else 0,
       leftThigh, rightThigh, leftArm, rightArm]

/-- Embeds distance3D (mesh_generator.cpp lines 170-175). -/
def distance3D (a b : PtR) : ℝ :=
  Real.sqrt ((a.x - b.x) * (a.x - b.x) + (a.y - b.y) * (a.y - b.y) +
    (a.z - b.z) * (a.z - b.z))

/-- Embeds isValidKeypoint (mesh_generator.cpp lines 178-182): a 3D
keypoint is valid unless it is the zero vector.  The NaN/infinity clauses
of the source are unrepresentable (hence false) in the exact model. -/
def isValidKeypoint (pt : Pt3) : Bool :=
  !(pt.x == 0 && pt.y == 0 && pt.z == 0)

/-- Vertex list of generateEllipsoid (mesh_generator.cpp lines 192-226):
rings+1 rows of sectors+1 vertices on an axis-aligned ellipsoid. -/
def ellipsoidVertices (center : PtR) (radiusX radiusY radiusZ : ℝ)
    (segments : ℕ) : List PtR :=
  let rings := segments / 2
  let sectors := segments
  (List.range (rings + 1)).flatMap (fun i =>
    (List.range (sectors + 1)).map (fun j =>
      let theta : ℝ := Real.pi * i / rings
      let phi : ℝ := 2 * Real.pi * j / sectors
      ⟨center.x + radiusX * Real.sin theta * Real.cos phi,
       center.y + radiusY * Real.cos theta,
       center.z + radiusZ * Real.sin theta * Real.sin phi⟩))

/-- Normal list of generateEllipsoid (mesh_generator.cpp lines 211-224):
the direction vector, divided by its norm when that exceeds 0.0001. -/
def ellipsoidNormals (segments : ℕ) : List PtR :=
  let rings := segments / 2
  let sectors := segments
  (List.range (rings + 1)).flatMap (fun i =>
    (List.range (sectors + 1)).map (fun j =>
      let theta : ℝ := Real.pi * i / rings
      let phi : ℝ := 2 * Real.pi * j / sectors
      let nx := Real.sin theta * Real.cos phi
      let ny := Real.cos theta
      let nz := Real.sin theta * Real.sin phi
      let norm := Real.sqrt (nx * nx + ny * ny + nz * nz)
      if 0.0001 < norm then ⟨nx / norm, ny / norm, nz / norm⟩
      else ⟨nx, ny, nz⟩))

/-- Index list of generateEllipsoid (mesh_generator.cpp lines 229-242),
two triangles per ring/sector cell, offset by the running vertex count. -/
def ellipsoidIndices (segments indexOffset : ℕ) : List ℕ :=
  let rings := segments / 2
  let sectors := segments
  (List.range rings).flatMap (fun i =>
    (List.range sectors).flatMap (fun j =>
      let first := indexOffset + i * (sectors + 1) + j
      let second := indexOffset + (i + 1) * (sectors + 1) + j
      [first, second, first + 1, first + 1, second, second + 1]))

/-- Embeds generateEllipsoid (mesh_generator.cpp lines 185-245).  The
source appends to shared buffers and advances indexOffset by reference;
the model returns the appended (vertices, normals, indices) and the new
offset. -/
def generateEllipsoid (center : PtR) (radiusX radiusY radiusZ : ℝ)
    (segments : ℕ) (indexOffset : ℕ) :
    List PtR × List PtR × List ℕ × ℕ :=
  let rings := segments / 2
  let sectors := segments
  (ellipsoidVertices center radiusX radiusY radiusZ segments,
   ellipsoidNormals segments,
   ellipsoidIndices segments indexOffset,
   indexOffset + (rings + 1) * (sectors + 1))

/-- Cross product of two real vectors, as written out componentwise in
generateCylinderBetweenPoints (mesh_generator.cpp lines 419-421, 431-433). -/
def crossR (a b : PtR) : PtR :=
  ⟨a.y * b.z - a.z * b.y, a.z * b.x - a.x * b.z, a.x * b.y - a.y * b.x⟩

/-- Norm of a real vector as computed in the source (sqrt of the sum of
squares). -/
def normR (a : PtR) : ℝ := Real.sqrt (a.x * a.x + a.y * a.y + a.z * a.z)

/-- Embeds generateCylinderBetweenPoints (mesh_generator.cpp lines
394-490): an open cylinder of the given radius swept between two points,
with the source's early returns for non-positive radius and small
length, and its guarded normalisations. -/
def generateCylinderBetweenPoints (startP endP : PtR) (radius : ℝ)
    (segments : ℕ) (indexOffset : ℕ) :
    List PtR × List PtR × List ℕ × ℕ :=
  if radius ≤ 0 then ([], [], [], indexOffset)
  else
    let length := distance3D startP endP
    if length < 0.001 then ([], [], [], indexOffset)
    else
      let direction : PtR :=
        ⟨(endP.x - startP.x) / length, (endP.y - startP.y) / length,
         (endP.z - startP.z) / length⟩
      let refVec : PtR :=
        if |direction.x| < 0.9 then ⟨1, 0, 0⟩ else ⟨0, 1, 0⟩
      let perp1a := crossR refVec direction
      let perp1Len := normR perp1a
      let perp1 : PtR :=
        if 0.001 < perp1Len then
          ⟨perp1a.x / perp1Len, perp1a.y / perp1Len, perp1a.z / perp1Len⟩
        else perp1a
      let perp2a := crossR direction perp1
      let perp2Len := normR perp2a
      let perp2 : PtR :=
        if 0.001 < perp2Len then
          ⟨perp2a.x / perp2Len, perp2a.y / perp2Len, perp2a.z / perp2Len⟩
        else perp2a
      let ringPts : ℕ → List PtR := fun ring =>
        let base := if ring = 0 then startP else endP
        (List.range (segments + 1)).map (fun i =>
          let angle : ℝ := 2 * Real.pi * i / segments
          let off : PtR :=
            ⟨radius * (Real.cos angle * perp1.x + Real.sin angle * perp2.x),
             radius * (Real.cos angle * perp1.y + Real.sin angle * perp2.y),
             radius * (Real.cos angle * perp1.z + Real.sin angle * perp2.z)⟩
          ⟨base.x + off.x, base.y + off.y, base.z + off.z⟩)
      let ringNorms : List PtR :=
        (List.range (segments + 1)).map (fun i =>
          let angle : ℝ := 2 * Real.pi * i / segments
          let off : PtR :=
            ⟨radius * (Real.cos angle * perp1.x + Real.sin angle * perp2.x),
             radius * (Real.cos angle * perp1.y + Real.sin angle * perp2.y),
             radius * (Real.cos angle * perp1.z + Real.sin angle * perp2.z)⟩
          let normLen := normR off
          if 0.001 < normLen then
            ⟨off.x / normLen, off.y / normLen, off.z / normLen⟩
          else perp1)
      let verts := ringPts 0 ++ ringPts 1
      let norms := ringNorms ++ ringNorms
      let idx :=
        (List.range segments).flatMap (fun i =>
          let base0 := indexOffset + i
          let base1 := indexOffset + segments + 1 + i
          [base0, base1, base0 + 1, base0 + 1, base1, base1 + 1])
      (verts, norms, idx, indexOffset + (segments + 1) * 2)

/-- Embeds writeUint32LE (mesh_generator.cpp lines 248-253): the four
little-endian bytes of a 32-bit value. -/
def writeUint32LE (value : ℕ) : List ℕ :=
  let v := value % 2 ^ 32
  [v % 256, v / 2 ^ 8 % 256, v / 2 ^ 16 % 256, v / 2 ^ 24 % 256]

/-- Minimum of a list of reals, seeded with the head as in the source's
scans that initialise min/max from the first vertex (mesh_generator.cpp
lines 277-288). -/
def foldMinR (l : List ℝ) : ℝ := l.foldl min (l.headD 0)

/-- Maximum of a list of reals, seeded with the head. -/
def foldMaxR (l : List ℝ) : ℝ := l.foldl max (l.headD 0)

/-- Binary payload of the GLB (mesh_generator.cpp lines 290-301):
positions, then normals, then indices, each element as 4 little-endian
bytes.  enc abstracts the IEEE-754 little-endian byte serialisation of a
float (writeFloatLE / the memcpy of the raw float arrays). -/
def glbBinaryBuffer (enc : ℝ → List ℕ) (vertices normals : List PtR)
    (indices : List ℕ) : List ℕ :=
  vertices.flatMap (fun p => enc p.x ++ enc p.y ++ enc p.z) ++
    normals.flatMap (fun p => enc p.x ++ enc p.y ++ enc p.z) ++
    indices.flatMap writeUint32LE

/-- Buffer byteLength reported in the JSON descriptor (mesh_generator.cpp
line 326): the size of the binary buffer at the time the JSON is built,
before the payload padding is appended. -/
def glbReportedBufferByteLength (enc : ℝ → List ℕ)
    (vertices normals : List PtR) (indices : List ℕ) : ℕ :=
  (glbBinaryBuffer enc vertices normals indices).length

/-- Position buffer-view byteLength as written into the JSON
(mesh_generator.cpp line 329): vertices.size() * sizeof(float), where the
flat float vector holds 3 floats per vertex. -/
def glbPosByteLength (vertices : List PtR) : ℕ := 3 * vertices.length * 4

/-- Normal buffer-view byteLength (mesh_generator.cpp line 331). -/
def glbNormByteLength (normals : List PtR) : ℕ := 3 * normals.length * 4

/-- Index buffer-view byteLength (mesh_generator.cpp line 334). -/
def glbIdxByteLength (indices : List ℕ) : ℕ := indices.length * 4

/-- Position accessor count (mesh_generator.cpp line 272, 338):
vertices.size() / 3 over the flat float vector. -/
def glbVertexCount (vertices : List PtR) : ℕ := vertices.length

/-- Normal accessor count (mesh_generator.cpp line 273, 342). -/
def glbNormalCount (normals : List PtR) : ℕ := normals.length

/-- Index accessor count (mesh_generator.cpp line 274, 344). -/
def glbIndexCount (indices : List ℕ) : ℕ := indices.length

/-- JSON scene descriptor of the GLB (mesh_generator.cpp lines 304-348).
fmt abstracts iostream formatting of a float with std::fixed and
precision 6; natural-number fields are rendered exactly. -/
def glbJson (enc : ℝ → List ℕ) (fmt : ℝ → String)
    (vertices normals : List PtR) (indices : List ℕ) : String :=
  let minX := foldMinR (vertices.map PtR.x)
  let maxX := foldMaxR (vertices.map PtR.x)
  let minY := foldMinR (vertices.map PtR.y)
  let maxY := foldMaxR (vertices.map PtR.y)
  let minZ := foldMinR (vertices.map PtR.z)
  let maxZ := foldMaxR (vertices.map PtR.z)
  "\x7b\n" ++
  "  \"asset\": \x7b\"version\": \"2.0\"\x7d,\n" ++
  "  \"scene\": 0,\n" ++
  "  \"scenes\": [\x7b\"nodes\": [0]\x7d],\n" ++
  "  \"nodes\": [\x7b\"mesh\": 0, \"name\": \"BodyMesh\"\x7d],\n" ++
  "  \"meshes\": [\x7b\n" ++
  "    \"primitives\": [\x7b\n" ++
  "      \"attributes\": \x7b\"POSITION\": 0, \"NORMAL\": 1\x7d,\n" ++
  "      \"indices\": 2,\n" ++
  "      \"material\": 0\n" ++
  "    \x7d]\n" ++
  "  \x7d],\n" ++
  "  \"materials\": [\x7b\n" ++
  "    \"pbrMetallicRoughness\": \x7b\n" ++
  "      \"baseColorFactor\": [0.8, 0.8, 0.8, 1.0],\n" ++
  "      \"metallicFactor\": 0.0,\n" ++
  "      \"roughnessFactor\": 0.5\n" ++
  "    \x7d,\n" ++
  "    \"doubleSided\": true\n" ++
  "  \x7d],\n" ++
  "  \"buffers\": [\x7b\"byteLength\": " ++
    toString (glbReportedBufferByteLength enc vertices normals indices) ++
    "\x7d],\n" ++
  "  \"bufferViews\": [\n" ++
  "    \x7b\"buffer\": 0, \"byteOffset\": 0, \"byteLength\": " ++
    toString (glbPosByteLength vertices) ++ ", \"target\": 34962\x7d,\n" ++
  "    \x7b\"buffer\": 0, \"byteOffset\": " ++
    toString (glbPosByteLength vertices) ++ ", \"byteLength\": " ++
    toString (glbNormByteLength normals) ++ ", \"target\": 34962\x7d,\n" ++
  "    \x7b\"buffer\": 0, \"byteOffset\": " ++
    toString (glbPosByteLength vertices + glbNormByteLength normals) ++
    ", \"byteLength\": " ++ toString (glbIdxByteLength indices) ++
    ", \"target\": 34963\x7d\n" ++
  "  ],\n" ++
  "  \"accessors\": [\n" ++
  "    \x7b\"bufferView\": 0, \"byteOffset\": 0, \"componentType\": 5126, \"count\": " ++
    toString (glbVertexCount vertices) ++
    ", \"type\": \"VEC3\", \"min\": [" ++
    fmt minX ++ "," ++ fmt minY ++ "," ++ fmt minZ ++ "], \"max\": [" ++
    fmt maxX ++ "," ++ fmt maxY ++ "," ++ fmt maxZ ++ "]\x7d,\n" ++
  "    \x7b\"bufferView\": 1, \"byteOffset\": 0, \"componentType\": 5126, \"count\": " ++
    toString (glbNormalCount normals) ++ ", \"type\": \"VEC3\"\x7d,\n" ++
  "    \x7b\"bufferView\": 2, \"byteOffset\": 0, \"componentType\": 5125, \"count\": " ++
    toString (glbIndexCount indices) ++ ", \"type\": \"SCALAR\"\x7d\n" ++
  "  ]\n" ++
  "\x7d\n"

/-- JSON text padded with trailing spaces to a 4-byte boundary
(mesh_generator.cpp lines 351-352). -/
def glbJsonPadded (enc : ℝ → List ℕ) (fmt : ℝ → String)
    (vertices normals : List PtR) (indices : List ℕ) : String :=
  let s := glbJson enc fmt vertices normals indices
  s ++ String.mk (List.replicate ((4 - s.length % 4) % 4) ' ')

/-- Binary payload padded with zero bytes to a 4-byte boundary
(mesh_generator.cpp lines 355-356): the actual BIN chunk payload. -/
def glbPaddedBinary (enc : ℝ → List ℕ) (vertices normals : List PtR)
    (indices : List ℕ) : List ℕ :=
  let b := glbBinaryBuffer enc vertices normals indices
  b ++ List.replicate ((4 - b.length % 4) % 4) 0

/-- Embeds createGLBManually (mesh_generator.cpp lines 263-391): the full
chunked binary asset.  The source writes a zero placeholder for the total
length and patches it after assembly; the model writes the resulting
value (12-byte header + two length-prefixed chunks) directly.  The
source's unused locals jsonChunkLength and binChunkLength are omitted.
JSON text is all ASCII, so its byte count equals its character count. -/
def createGLBManually (enc : ℝ → List ℕ) (fmt : ℝ → String)
    (vertices normals : List PtR) (indices : List ℕ) : List ℕ :=
  if vertices = [] ∨ indices = [] then []
  else
    let jsonBytes :=
      (glbJsonPadded enc fmt vertices normals indices).toList.map Char.toNat
    let bin := glbPaddedBinary enc vertices normals indices
    let total := 12 + (8 + jsonBytes.length) + (8 + bin.length)
    [0x67, 0x6C, 0x54, 0x46] ++ writeUint32LE 2 ++ writeUint32LE total ++
      writeUint32LE jsonBytes.length ++ [0x4A, 0x53, 0x4F, 0x4E] ++
      jsonBytes ++
      writeUint32LE bin.length ++ [0x42, 0x49, 0x4E, 0x00] ++ bin

/-- Number of valid keypoints in the input (mesh_generator.cpp lines
506-511). -/
def countValidKeypoints (kpts3d : List Pt3) : ℕ :=
  kpts3d.countP (fun pt => isValidKeypoint pt)

/-- The 15 BODY_25 anchor keypoints extracted by createFromKeypoints
(mesh_generator.cpp lines 517-535). -/
structure Anchors where
  nose : Pt3
  neck : Pt3
  rightShoulder : Pt3
  rightElbow : Pt3
  rightWrist : Pt3
  leftShoulder : Pt3
  leftElbow : Pt3
  leftWrist : Pt3
  midHip : Pt3
  rightHip : Pt3
  rightKnee : Pt3
  rightAnkle : Pt3
  leftHip : Pt3
  leftKnee : Pt3
  leftAnkle : Pt3
deriving DecidableEq

/-- Anchor slot j as extracted by createFromKeypoints (mesh_generator.cpp
lines 521-535): the keypoint when the slot exists (below
min(size, 25)) and is valid, the zero point otherwise. -/
def anchorAt (kpts3d : List Pt3) (j : ℕ) : Pt3 :=
  if decide (j < min kpts3d.length 25) &&
      isValidKeypoint (kpts3d.getD j Pt3.zero) then
    kpts3d.getD j Pt3.zero
  else Pt3.zero

/-- Extraction of all 15 anchors (mesh_generator.cpp lines 517-535). -/
def extractAnchors (kpts3d : List Pt3) : Anchors :=
  ⟨anchorAt kpts3d 0, anchorAt kpts3d 1, anchorAt kpts3d 2,
   anchorAt kpts3d 3, anchorAt kpts3d 4, anchorAt kpts3d 5,
   anchorAt kpts3d 6, anchorAt kpts3d 7, anchorAt kpts3d 8,
   anchorAt kpts3d 9, anchorAt kpts3d 10, anchorAt kpts3d 11,
   anchorAt kpts3d 12, anchorAt kpts3d 13, anchorAt kpts3d 14⟩

/-- Body-mesh assembly and serialisation from the extracted anchors
(mesh_generator.cpp lines 537-817): per-segment solids appended to shared
buffers, bounding-box post-processing with the placeholder/unit-scale
branches, and the final GLB encoding.  The source's dead local headTop
(lines 585-592, computed but never used) is omitted.  In the placeholder
branch the source sets center to 0 and scale to 1 and then runs the same
recentre-and-scale loop; the model applies that (identity) map likewise. -/
def buildBody (enc : ℝ → List ℕ) (fmt : ℝ → String) (a : Anchors) :
    List ℕ :=
  let segments : ℕ := 16
  let bodyScale : ℝ :=
    if isValidKeypoint a.neck && isValidKeypoint a.midHip then
      let torsoHeight := distance3D a.neck.toR a.midHip.toR
      if 0.1 < torsoHeight ∧ torsoHeight < 200 then torsoHeight / 45 else 1
    else 1
  let shoulderWidth : ℝ :=
    if isValidKeypoint a.rightShoulder && isValidKeypoint a.leftShoulder then
      distance3D a.rightShoulder.toR a.leftShoulder.toR
    else 0
  let headRadius : ℝ :=
    if isValidKeypoint a.rightShoulder && isValidKeypoint a.leftShoulder then
      shoulderWidth * 0.25
    else 8 * bodyScale
  let torsoWidth0 : ℝ := shoulderWidth * 0.4
  let torsoDepth : ℝ := torsoWidth0 * 0.6
  let hipWidth : ℝ :=
    if isValidKeypoint a.rightHip && isValidKeypoint a.leftHip then
      distance3D a.rightHip.toR a.leftHip.toR
    else torsoWidth0 * 0.9
  let s1 :=
    if isValidKeypoint a.nose then
      generateEllipsoid a.nose.toR headRadius (headRadius * 1.5) headRadius
        segments 0
    else ([], [], [], 0)
  let s2 :=
    if isValidKeypoint a.neck && isValidKeypoint a.nose then
      let headBase : PtR :=
        ⟨a.neck.toR.x, a.neck.toR.y + headRadius * 0.3, a.neck.toR.z⟩
      generateCylinderBetweenPoints headBase a.neck.toR (headRadius * 0.6)
        segments s1.2.2.2
    else ([], [], [], s1.2.2.2)
  let s3 :=
    if isValidKeypoint a.neck && isValidKeypoint a.midHip then
      let torsoHeight := distance3D a.neck.toR a.midHip.toR
      let torsoCenter : PtR :=
        ⟨(a.neck.toR.x + a.midHip.toR.x) * 0.5,
         (a.neck.toR.y + a.midHip.toR.y) * 0.5,
         (a.neck.toR.z + a.midHip.toR.z) * 0.5⟩
      let torsoWidth :=
        if isValidKeypoint a.rightShoulder && isValidKeypoint a.leftShoulder then
          distance3D a.rightShoulder.toR a.leftShoulder.toR * 0.5
        else torsoWidth0
      generateEllipsoid torsoCenter (torsoWidth * 0.5) (torsoHeight * 0.5)
        (torsoDepth * 0.5) segments s2.2.2.2
    else ([], [], [], s2.2.2.2)
  let s4 :=
    if isValidKeypoint a.midHip then
      let pelvisHeight : ℝ :=
        if isValidKeypoint a.rightHip && isValidKeypoint a.leftHip then
          distance3D a.rightHip.toR a.leftHip.toR * 0.3
        else 12 * bodyScale
      generateEllipsoid a.midHip.toR (hipWidth * 0.5) (pelvisHeight * 0.5)
        (hipWidth * 0.4) segments s3.2.2.2
    else ([], [], [], s3.2.2.2)
  let s5 :=
    if isValidKeypoint a.rightHip && isValidKeypoint a.rightKnee then
      generateCylinderBetweenPoints a.rightHip.toR a.rightKnee.toR
        (distance3D a.rightHip.toR a.rightKnee.toR * 0.12) segments s4.2.2.2
    else ([], [], [], s4.2.2.2)
  let s6 :=
    if isValidKeypoint a.leftHip && isValidKeypoint a.leftKnee then
      generateCylinderBetweenPoints a.leftHip.toR a.leftKnee.toR
        (distance3D a.leftHip.toR a.leftKnee.toR * 0.12) segments s5.2.2.2
    else ([], [], [], s5.2.2.2)
  let s7 :=
    if isValidKeypoint a.rightKnee && isValidKeypoint a.rightAnkle then
      generateCylinderBetweenPoints a.rightKnee.toR a.rightAnkle.toR
        (distance3D a.rightKnee.toR a.rightAnkle.toR * 0.10) segments s6.2.2.2
    else ([], [], [], s6.2.2.2)
  let s8 :=
    if isValidKeypoint a.leftKnee && isValidKeypoint a.leftAnkle then
      generateCylinderBetweenPoints a.leftKnee.toR a.leftAnkle.toR
        (distance3D a.leftKnee.toR a.leftAnkle.toR * 0.10) segments s7.2.2.2
    else ([], [], [], s7.2.2.2)
  let s9 :=
    if isValidKeypoint a.rightShoulder && isValidKeypoint a.rightElbow then
      generateCylinderBetweenPoints a.rightShoulder.toR a.rightElbow.toR
        (distance3D a.rightShoulder.toR a.rightElbow.toR * 0.10) segments
        s8.2.2.2
    else ([], [], [], s8.2.2.2)
  let s10 :=
    if isValidKeypoint a.leftShoulder && isValidKeypoint a.leftElbow then
      generateCylinderBetweenPoints a.leftShoulder.toR a.leftElbow.toR
        (distance3D a.leftShoulder.toR a.leftElbow.toR * 0.10) segments
        s9.2.2.2
    else ([], [], [], s9.2.2.2)
  let s11 :=
    if isValidKeypoint a.rightElbow && isValidKeypoint a.rightWrist then
      generateCylinderBetweenPoints a.rightElbow.toR a.rightWrist.toR
        (distance3D a.rightElbow.toR a.rightWrist.toR * 0.08) segments
        s10.2.2.2
    else ([], [], [], s10.2.2.2)
  let s12 :=
    if isValidKeypoint a.leftElbow && isValidKeypoint a.leftWrist then
      generateCylinderBetweenPoints a.leftElbow.toR a.leftWrist.toR
        (distance3D a.leftElbow.toR a.leftWrist.toR * 0.08) segments
        s11.2.2.2
    else ([], [], [], s11.2.2.2)
  let allVertices : List PtR :=
    s1.1 ++ s2.1 ++ s3.1 ++ s4.1 ++ s5.1 ++ s6.1 ++ s7.1 ++ s8.1 ++
      s9.1 ++ s10.1 ++ s11.1 ++ s12.1
  let allNormals : List PtR :=
    s1.2.1 ++ s2.2.1 ++ s3.2.1 ++ s4.2.1 ++ s5.2.1 ++ s6.2.1 ++ s7.2.1 ++
      s8.2.1 ++ s9.2.1 ++ s10.2.1 ++ s11.2.1 ++ s12.2.1
  let allIndices : List ℕ :=
    s1.2.2.1 ++ s2.2.2.1 ++ s3.2.2.1 ++ s4.2.2.1 ++ s5.2.2.1 ++ s6.2.2.1 ++
      s7.2.2.1 ++ s8.2.2.1 ++ s9.2.2.1 ++ s10.2.2.1 ++ s11.2.2.1 ++ s12.2.2.1
  if allVertices = [] ∨ allIndices = [] then []
  else
    let minX := foldMinR (allVertices.map PtR.x)
    let maxX := foldMaxR (allVertices.map PtR.x)
    let minY := foldMinR (allVertices.map PtR.y)
    let maxY := foldMaxR (allVertices.map PtR.y)
    let minZ := foldMinR (allVertices.map PtR.z)
    let maxZ := foldMaxR (allVertices.map PtR.z)
    let centerX := (minX + maxX) * 0.5
    let centerY := (minY + maxY) * 0.5
    let centerZ := (minZ + maxZ) * 0.5
    let maxSize := max (max (maxX - minX) (maxY - minY)) (maxZ - minZ)
    if maxSize < 0.001 then
      let p1 := generateEllipsoid ⟨0, 1.2, 0⟩ 0.15 0.15 0.15 segments 0
      let p2 := generateEllipsoid ⟨0, 0.6, 0⟩ 0.25 0.6 0.2 segments p1.2.2.2
      let verts :=
        (p1.1 ++ p2.1).map (fun p : PtR =>
          (⟨(p.x - 0) * 1, (p.y - 0) * 1, (p.z - 0) * 1⟩ : PtR))
      createGLBManually enc fmt verts (p1.2.1 ++ p2.2.1)
        (p1.2.2.1 ++ p2.2.2.1)
    else
      let scale : ℝ :=
        if 100 < maxSize then 0.01
        else if maxSize < 1 then 1.5 / maxSize
        else 1
      let verts :=
        allVertices.map (fun p : PtR =>
          (⟨(p.x - centerX) * scale, (p.y - centerY) * scale,
            (p.z - centerZ) * scale⟩ : PtR))
      createGLBManually enc fmt verts allNormals allIndices

/-- Embeds MeshGenerator::createFromKeypoints (mesh_generator.cpp lines
492-818): reject inputs with fewer than 15 keypoints or fewer than 10
valid keypoints, then build the body mesh from the extracted anchors. -/
def createFromKeypoints (enc : ℝ → List ℕ) (fmt : ℝ → String)
    (kpts3d : List Pt3) : List ℕ :=
  if kpts3d = [] ∨ kpts3d.length < 15 then []
  else if countValidKeypoints kpts3d < 10 then []
  else buildBody enc fmt (extractAnchors kpts3d)

end MeshGen

namespace MV3D

/-- Process-wide static state of MultiView3D::triangulate
(multi_view_3d.cpp lines 125-126): the `static bool scaleComputed` and
`static float scaleFactor` variables, made explicit and threaded through
the function. -/
structure TriCache where
  scaleComputed : Bool
  scaleFactor : ℚ
deriving DecidableEq, Repr

/-- Values the statics hold at process start (multi_view_3d.cpp lines
125-126): scaleFactor = 1.0, scaleComputed = false. -/
def TriCache.init : TriCache := ⟨false, 1⟩

/-- Homogeneous 4-vector, the output of cv::triangulatePoints for one
point pair. -/
structure H4 where
  x : ℚ
  y : ℚ
  z : ℚ
  w : ℚ

/-- The scale-factor block executed inside the per-keypoint loop
(multi_view_3d.cpp lines 125-152): on the first iteration with
scaleComputed still false and a positive user height, scan the first
min(50, size) points of view 0 whose y lies strictly inside (0, 1); if
the scan found two distinct y values, set the factor to
userHeight / (|maxY - minY| * 200); in every case mark the scale
computed.  The sentinel-initialised min/max scan of the source is
rendered with optional list minima/maxima: an empty candidate list leaves
the sentinels in their initial max/lowest state, for which the
`maxY > minY` test is false. -/
def scaleScanYs (view0 : List Pt2) : List ℚ :=
  ((view0.take 50).map Pt2.y).filter (fun y => 0 < y ∧ y < 1)

/-- The scale-factor block, continued: the estimatedHeight3D local of the
source is written out as |maxY - minY| * 200 in both places it is
used. -/
def computeScaleUpdate (view0 : List Pt2) (userHeight : ℚ)
    (c : TriCache) : TriCache :=
  if c.scaleComputed = false ∧ 0 < userHeight then
    match (scaleScanYs view0).min?, (scaleScanYs view0).max? with
    | some mn, some mx =>
      if mn < mx then
        if 0 < |mx - mn| * 200 then ⟨true, userHeight / (|mx - mn| * 200)⟩
        else ⟨true, c.scaleFactor⟩
      else ⟨true, c.scaleFactor⟩
    | _, _ => ⟨true, c.scaleFactor⟩
  else c

/-- Embeds MultiView3D::triangulate (multi_view_3d.cpp lines 9-166).
The parameter dlt4 abstracts cv::triangulatePoints applied with the two
fixed projection matrices P0 and P1 (built once per call from the fixed
camera poses and intrinsics, lines 26-70) to the pixel coordinates of a
keypoint in views 0 and 1; it returns the homogeneous 4-vector before
dehomogenisation.  The explicit TriCache state stands for the two
process-wide statics; the function returns the output list together with
the state left behind for the next call. -/
def triangulate (dlt4 : ℚ × ℚ → ℚ × ℚ → H4) (st : TriCache)
    (kpts2d : List (List Pt2)) (userHeight : ℚ) :
    List Pt3 × TriCache :=
  if kpts2d.length ≠ 3 then (List.replicate 135 Pt3.zero, st)
  else
    let view0 := kpts2d.getD 0 []
    let view1 := kpts2d.getD 1 []
    (List.range 135).foldl
      (fun acc i =>
        if kpts2d.all (fun v => i < v.length) then
          let p0 := view0.getD i Pt2.zero
          let p1 := view1.getD i Pt2.zero
          let q := dlt4 (p0.x * 640, p0.y * 480) (p1.x * 640, p1.y * 480)
          let point3d : Pt3 :=
            if q.w ≠ 0 then ⟨q.x / q.w, q.y / q.w, q.z / q.w⟩ else Pt3.zero
          let c2 := computeScaleUpdate view0 userHeight acc.2
          (acc.1 ++
            [⟨point3d.x * c2.scaleFactor, -(point3d.y * c2.scaleFactor),
              point3d.z * c2.scaleFactor⟩], c2)
        else (acc.1 ++ [Pt3.zero], acc.2))
      ([], st)

end MV3D

namespace Jni

/-- Embeds isValidKeypoint (jni_bridge.cpp lines 386-388): a 2D keypoint
is valid exactly when both coordinates lie inside [0, 1].  Note this is a
pure range check; the point (0, 0) passes it. -/
def isValidKeypoint (pt : Pt2) : Bool :=
  decide (0 ≤ pt.x) && decide (pt.x ≤ 1) &&
    decide (0 ≤ pt.y) && decide (pt.y ≤ 1)

/-- Embeds keypointDistance (jni_bridge.cpp lines 391-395): Euclidean
distance in normalized coordinates. -/
def keypointDistance (p1 p2 : Pt2) : ℝ :=
  Real.sqrt
    (((p2.x - p1.x) * (p2.x - p1.x) + (p2.y - p1.y) * (p2.y - p1.y) : ℚ) : ℝ)

/-- Embeds validateMeasurement (jni_bridge.cpp lines 398-403): zero out a
value outside [minVal, maxVal].  The NaN/infinity clauses of the source
are unrepresentable (hence false) in the exact model. -/
def validateMeasurement (value minVal maxVal : ℝ) : ℝ :=
  if value < minVal ∨ maxVal < value then 0 else value

/-- Segmentation mask aligned to the processed image, modelling the
cv::Mat of per-pixel confidences: dimensions plus a value lookup at
(row, col).  An absent mask (cv::Mat()) is modelled as Option.none at the
call sites. -/
structure Mask where
  cols : ℤ
  rows : ℤ
  valueAt : ℤ → ℤ → ℚ

/-- Truncation toward zero, modelling static_cast<int> on a float. -/
def truncQ (q : ℚ) : ℤ := if q < 0 then -⌊-q⌋ else ⌊q⌋

/-- Keypoint slot j of the list (the C++ vector access kpts2d[j]; every
use below is guarded by a bound check as in the source). -/
def kp (kpts2d : List Pt2) (j : ℕ) : Pt2 := kpts2d.getD j Pt2.zero

/-- Nose-based head height (jni_bridge.cpp lines 446-451): the nose y
when the nose is valid, else the initial 1.0 sentinel. -/
def headYOf (kpts2d : List Pt2) : ℚ :=
  if isValidKeypoint (kp kpts2d 0) then (kp kpts2d 0).y else 1

/-- Whether the nose keypoint is valid (jni_bridge.cpp line 448). -/
def hasHead (kpts2d : List Pt2) : Bool := isValidKeypoint (kp kpts2d 0)

/-- Indices 27..32 that exist in the list (the loop bound of
jni_bridge.cpp line 456). -/
def feetIdx (kpts2d : List Pt2) : List ℕ :=
  ((List.range 6).map (fun k => 27 + k)).filter (fun i => i < kpts2d.length)

/-- Maximum y over the valid foot keypoints, starting from the 0.0
sentinel (jni_bridge.cpp lines 454-461). -/
def feetYFromFeet (kpts2d : List Pt2) : ℚ :=
  (feetIdx kpts2d).foldl
    (fun acc i =>
      if isValidKeypoint (kp kpts2d i) then max acc (kp kpts2d i).y else acc) 0

/-- Whether any foot keypoint (indices 27..32) is valid (jni_bridge.cpp
lines 454-461). -/
def hasFeet (kpts2d : List Pt2) : Bool :=
  (feetIdx kpts2d).any (fun i => isValidKeypoint (kp kpts2d i))

/-- Fallback: maximum y over all valid keypoints (jni_bridge.cpp lines
464-470). -/
def feetYFallback (kpts2d : List Pt2) : ℚ :=
  kpts2d.foldl (fun acc p => if isValidKeypoint p then max acc p.y else acc) 0

/-- The feet y actually used (jni_bridge.cpp lines 454-470). -/
def feetYOf (kpts2d : List Pt2) : ℚ :=
  if hasFeet kpts2d then feetYFromFeet kpts2d else feetYFallback kpts2d

/-- Measurement slot 0, shoulder width (jni_bridge.cpp lines 489-494):
distance between keypoints 11 and 12, scaled by image width and
cm-per-pixel, clamped to [30, 60]. -/
def measureShoulderWidth (kpts2d : List Pt2) (imgWidth : ℤ)
    (cmPerPixel : ℚ) : ℝ :=
  if decide (12 < kpts2d.length) && isValidKeypoint (kp kpts2d 11) &&
      isValidKeypoint (kp kpts2d 12) then
    validateMeasurement
      (keypointDistance (kp kpts2d 11) (kp kpts2d 12) * (imgWidth : ℝ) *
        (cmPerPixel : ℝ)) 30 60
  else 0

/-- Measurement slot 1, average arm length (jni_bridge.cpp lines
496-518): per-segment chain sums for both arms, averaged, scaled by the
larger image dimension, clamped to [50, 80]. -/
def measureArmLength (kpts2d : List Pt2) (imgWidth imgHeight : ℤ)
    (cmPerPixel : ℚ) : ℝ :=
  if decide (16 < kpts2d.length) &&
      isValidKeypoint (kp kpts2d 11) && isValidKeypoint (kp kpts2d 13) &&
      isValidKeypoint (kp kpts2d 15) && isValidKeypoint (kp kpts2d 12) &&
      isValidKeypoint (kp kpts2d 14) && isValidKeypoint (kp kpts2d 16) then
    let leftLen := keypointDistance (kp kpts2d 11) (kp kpts2d 13) +
      keypointDistance (kp kpts2d 13) (kp kpts2d 15)
    let rightLen := keypointDistance (kp kpts2d 12) (kp kpts2d 14) +
      keypointDistance (kp kpts2d 14) (kp kpts2d 16)
    validateMeasurement
      (((leftLen + rightLen) / 2) * ((max imgWidth imgHeight : ℤ) : ℝ) *
        (cmPerPixel : ℚ)) 50 80
  else 0

/-- Measurement slot 2, average leg length (jni_bridge.cpp lines
520-542): hip→knee→ankle chains for both legs, averaged, scaled by the
larger image dimension, clamped to [70, 120]. -/
def measureLegLength (kpts2d : List Pt2) (imgWidth imgHeight : ℤ)
    (cmPerPixel : ℚ) : ℝ :=
  if decide (28 < kpts2d.length) &&
      isValidKeypoint (kp kpts2d 23) && isValidKeypoint (kp kpts2d 25) &&
      isValidKeypoint (kp kpts2d 27) && isValidKeypoint (kp kpts2d 24) &&
      isValidKeypoint (kp kpts2d 26) && isValidKeypoint (kp kpts2d 28) then
    let leftLen := keypointDistance (kp kpts2d 23) (kp kpts2d 25) +
      keypointDistance (kp kpts2d 25) (kp kpts2d 27)
    let rightLen := keypointDistance (kp kpts2d 24) (kp kpts2d 26) +
      keypointDistance (kp kpts2d 26) (kp kpts2d 28)
    validateMeasurement
      (((leftLen + rightLen) / 2) * ((max imgWidth imgHeight : ℤ) : ℝ) *
        (cmPerPixel : ℚ)) 70 120
  else 0

/-- Measurement slot 3, hip width (jni_bridge.cpp lines 544-549):
distance between keypoints 23 and 24, scaled by image width, clamped to
[25, 50]. -/
def measureHipWidth (kpts2d : List Pt2) (imgWidth : ℤ)
    (cmPerPixel : ℚ) : ℝ :=
  if decide (24 < kpts2d.length) && isValidKeypoint (kp kpts2d 23) &&
      isValidKeypoint (kp kpts2d 24) then
    validateMeasurement
      (keypointDistance (kp kpts2d 23) (kp kpts2d 24) * (imgWidth : ℝ) *
        (cmPerPixel : ℚ)) 25 50
  else 0

/-- Scan for the highest (minimum-y) valid keypoint among slots 0..32
(jni_bridge.cpp lines 558-570): carries the running (highestY,
highestKeypoint, foundHighest) triple, initialised to (1.0, default
point, false). -/
def highestScan (kpts2d : List Pt2) : ℚ × Pt2 × Bool :=
  (((List.range 33).filter (fun i => i < kpts2d.length))).foldl
    (fun acc i =>
      if isValidKeypoint (kp kpts2d i) ∧ (kp kpts2d i).y < acc.1 then
        ((kp kpts2d i).y, kp kpts2d i, true)
      else acc)
    (1, Pt2.zero, false)

/-- Measurement slot 4, upper-body length (jni_bridge.cpp lines
551-578): hip-midpoint y minus the highest valid keypoint's y, scaled by
image height, clamped to [40, 80]. -/
def measureUpperBody (kpts2d : List Pt2) (imgHeight : ℤ)
    (cmPerPixel : ℚ) : ℝ :=
  if decide (24 < kpts2d.length) && isValidKeypoint (kp kpts2d 23) &&
      isValidKeypoint (kp kpts2d 24) then
    let hipMidY := ((kp kpts2d 23).y + (kp kpts2d 24).y) / 2
    let scan := highestScan kpts2d
    if scan.2.2 then
      validateMeasurement
        (((hipMidY - scan.2.1.y) * imgHeight * cmPerPixel : ℚ) : ℝ) 40 80
    else 0
  else 0

/-- Measurement slot 5, lower-body length (jni_bridge.cpp lines
580-598): distance from hip midpoint to ankle midpoint, scaled by image
height, clamped to [60, 100]. -/
def measureLowerBody (kpts2d : List Pt2) (imgHeight : ℤ)
    (cmPerPixel : ℚ) : ℝ :=
  if decide (28 < kpts2d.length) &&
      isValidKeypoint (kp kpts2d 23) && isValidKeypoint (kp kpts2d 24) &&
      isValidKeypoint (kp kpts2d 27) && isValidKeypoint (kp kpts2d 28) then
    let hipMid : Pt2 := ⟨((kp kpts2d 23).x + (kp kpts2d 24).x) / 2,
      ((kp kpts2d 23).y + (kp kpts2d 24).y) / 2⟩
    let ankleMid : Pt2 := ⟨((kp kpts2d 27).x + (kp kpts2d 28).x) / 2,
      ((kp kpts2d 27).y + (kp kpts2d 28).y) / 2⟩
    validateMeasurement
      (keypointDistance hipMid ankleMid * (imgHeight : ℝ) *
        (cmPerPixel : ℚ)) 60 100
  else 0

/-- Measurement slot 6, neck width (jni_bridge.cpp lines 600-605):
distance between keypoints 2 and 5, scaled by image width, clamped to
[8, 15]. -/
def measureNeckWidth (kpts2d : List Pt2) (imgWidth : ℤ)
    (cmPerPixel : ℚ) : ℝ :=
  if decide (5 < kpts2d.length) && isValidKeypoint (kp kpts2d 2) &&
      isValidKeypoint (kp kpts2d 5) then
    validateMeasurement
      (keypointDistance (kp kpts2d 2) (kp kpts2d 5) * (imgWidth : ℝ) *
        (cmPerPixel : ℚ)) 8 15
  else 0

/-- Whether the pixel-level thigh edge detection is available
(jni_bridge.cpp lines 614-616): mask and processed image both present
with equal dimensions.  The processed image is only consulted for
emptiness and dimensions, so it is modelled as its (cols, rows). -/
def usePixelDetection (processedImg : Option (ℤ × ℤ))
    (segmentationMask : Option Mask) : Bool :=
  match segmentationMask, processedImg with
  | some m, some img => decide (m.cols = img.1) && decide (m.rows = img.2)
  | _, _ => false

/-- Body centreline x in pixels used by the thigh scans (jni_bridge.cpp
lines 642-645 and 692-695): the hip-midpoint x when both hips are valid,
else 0. -/
def bodyCenterXPixels (kpts2d : List Pt2) (imgWidth : ℤ) : ℤ :=
  if decide (24 < kpts2d.length) && isValidKeypoint (kp kpts2d 23) &&
      isValidKeypoint (kp kpts2d 24) then
    truncQ (((kp kpts2d 23).x + (kp kpts2d 24).x) / 2 * imgWidth)
  else 0

/-- Whether position (midY, x) passes the in-loop mask bound test and has
mask value above 0.5 (jni_bridge.cpp lines 632-634 etc.). -/
def maskHit (m : Mask) (midY x : ℤ) : Bool :=
  decide (0 ≤ x) && decide (x < m.cols) && decide (0 ≤ midY) &&
    decide (midY < m.rows) && decide ((1 : ℚ) / 2 < m.valueAt midY x)

/-- Ascending scan x = lo, lo+1, ..., hi-1 for the first mask hit. -/
def scanUp (m : Mask) (midY lo hi : ℤ) : Option ℤ :=
  (((List.range (hi - lo).toNat).map (fun k => lo + k)).find?
    (fun x => maskHit m midY x))

/-- Descending scan x = hi, hi-1, ..., lo for the first mask hit. -/
def scanDown (m : Mask) (midY lo hi : ℤ) : Option ℤ :=
  (((List.range (hi - lo + 1).toNat).map (fun k => hi - k)).find?
    (fun x => maskHit m midY x))

/-- Pixel-level left-thigh edge detection (jni_bridge.cpp lines
624-661): leftmost silhouette edge scanning from the image's left border,
rightmost edge scanning down from searchEnd to the left hip x; the
detected width when both edges exist in the right order. -/
def leftThighScan (kpts2d : List Pt2) (imgWidth : ℤ) (midY : ℤ)
    (m : Mask) : Option ℚ :=
  let leftHipX := truncQ ((kp kpts2d 23).x * imgWidth)
  let bodyCenterX := bodyCenterXPixels kpts2d imgWidth
  let searchEnd := min (leftHipX + (bodyCenterX - leftHipX) * 2) (imgWidth - 1)
  match scanUp m midY 0 imgWidth, scanDown m midY leftHipX searchEnd with
  | some le, some re =>
    if 0 ≤ le ∧ 0 ≤ re ∧ le < re then some ((re - le : ℤ) : ℚ) else none
  | _, _ => none

/-- Pixel-level right-thigh edge detection (jni_bridge.cpp lines
684-721): leftmost edge scanning right from the body centreline,
rightmost edge scanning down from the image's right border to the right
hip x. -/
def rightThighScan (kpts2d : List Pt2) (imgWidth : ℤ) (midY : ℤ)
    (m : Mask) : Option ℚ :=
  let rightHipX := truncQ ((kp kpts2d 24).x * imgWidth)
  let bodyCenterX := bodyCenterXPixels kpts2d imgWidth
  match scanUp m midY bodyCenterX imgWidth,
      scanDown m midY rightHipX (imgWidth - 1) with
  | some le, some re =>
    if 0 ≤ le ∧ 0 ≤ re ∧ le < re then some ((re - le : ℤ) : ℚ) else none
  | _, _ => none

/-- Fallback thigh-width estimate from the hip-to-centreline distance
(jni_bridge.cpp lines 665-675 and 724-735), for the hip keypoint at the
given slot: 2 × |hipX − centerX| × 1.5, in pixels of the image width. -/
def thighFallback (kpts2d : List Pt2) (hipSlot : ℕ) (imgWidth : ℤ) : ℚ :=
  let bodyCenterX : ℚ :=
    if decide (24 < kpts2d.length) && isValidKeypoint (kp kpts2d 23) &&
        isValidKeypoint (kp kpts2d 24) then
      ((kp kpts2d 23).x + (kp kpts2d 24).x) / 2
    else 1 / 2
  |((kp kpts2d hipSlot).x - bodyCenterX)| * (3 / 2) * 2 * imgWidth

/-- Left-thigh width in pixels, when computable (jni_bridge.cpp lines
618-677): pixel detection at the hip/knee vertical midpoint when
available, the fallback estimate otherwise; none when hip or knee is
invalid. -/
def leftThighWidthPixels (kpts2d : List Pt2) (imgWidth imgHeight : ℤ)
    (processedImg : Option (ℤ × ℤ)) (segmentationMask : Option Mask) :
    Option ℚ :=
  if decide (25 < kpts2d.length) && isValidKeypoint (kp kpts2d 23) &&
      isValidKeypoint (kp kpts2d 25) then
    let midY := truncQ (((kp kpts2d 23).y + (kp kpts2d 25).y) / 2 * imgHeight)
    let scanned : Option ℚ :=
      if usePixelDetection processedImg segmentationMask ∧
          0 ≤ midY ∧ midY < imgHeight then
        match segmentationMask with
        | some m => leftThighScan kpts2d imgWidth midY m
        | none => none
      else none
    match scanned with
    | some w => some w
    | none => some (thighFallback kpts2d 23 imgWidth)
  else none

/-- Right-thigh width in pixels, when computable (jni_bridge.cpp lines
679-736). -/
def rightThighWidthPixels (kpts2d : List Pt2) (imgWidth imgHeight : ℤ)
    (processedImg : Option (ℤ × ℤ)) (segmentationMask : Option Mask) :
    Option ℚ :=
  if decide (26 < kpts2d.length) && isValidKeypoint (kp kpts2d 24) &&
      isValidKeypoint (kp kpts2d 26) then
    let midY := truncQ (((kp kpts2d 24).y + (kp kpts2d 26).y) / 2 * imgHeight)
    let scanned : Option ℚ :=
      if usePixelDetection processedImg segmentationMask ∧
          0 ≤ midY ∧ midY < imgHeight then
        match segmentationMask with
        | some m => rightThighScan kpts2d imgWidth midY m
        | none => none
      else none
    match scanned with
    | some w => some w
    | none => some (thighFallback kpts2d 24 imgWidth)
  else none

/-- Measurement slot 7, thigh width (jni_bridge.cpp lines 607-749):
average of the available per-side widths in pixels, converted to
centimeters and clamped to [15, 40]. -/
def measureThighWidth (kpts2d : List Pt2) (imgWidth imgHeight : ℤ)
    (processedImg : Option (ℤ × ℤ)) (segmentationMask : Option Mask)
    (cmPerPixel : ℚ) : ℝ :=
  match leftThighWidthPixels kpts2d imgWidth imgHeight processedImg
      segmentationMask,
    rightThighWidthPixels kpts2d imgWidth imgHeight processedImg
      segmentationMask with
  | some l, some r =>
    validateMeasurement ((((l + r) / 2) * cmPerPixel : ℚ) : ℝ) 15 40
  | some l, none => validateMeasurement ((l * cmPerPixel : ℚ) : ℝ) 15 40
  | none, some r => validateMeasurement ((r * cmPerPixel : ℚ) : ℝ) 15 40
  | none, none => 0

/-- Embeds computeMeasurementsFrom2D (jni_bridge.cpp lines 430-752),
measurement Strategy B.  Returns the 8-slot vector
[shoulderWidth, armLength, legLength, hipWidth, upperBody, lowerBody,
neckWidth, thighWidth]; each slot is written at most once onto the
zero-initialised vector, so the result is the list of the slot values. -/
def computeMeasurementsFrom2D (kpts2d : List Pt2) (userHeight : ℚ)
    (imgWidth imgHeight : ℤ) (processedImg : Option (ℤ × ℤ))
    (segmentationMask : Option Mask) : List ℝ :=
  if kpts2d = [] ∨ kpts2d.length < 33 ∨ userHeight ≤ 0 ∨
      300 < userHeight ∨ imgWidth ≤ 0 ∨ imgHeight ≤ 0 then
    List.replicate 8 0
  else
    let bodyHeightNormalized := feetYOf kpts2d - headYOf kpts2d
    if bodyHeightNormalized ≤ 0 ∨ hasHead kpts2d = false then
      List.replicate 8 0
    else
      let bodyHeightPixels := bodyHeightNormalized * imgHeight
      if bodyHeightPixels ≤ 0 then List.replicate 8 0
      else
        let cmPerPixel := userHeight / bodyHeightPixels
        [measureShoulderWidth kpts2d imgWidth cmPerPixel,
         measureArmLength kpts2d imgWidth imgHeight cmPerPixel,
         measureLegLength kpts2d imgWidth imgHeight cmPerPixel,
         measureHipWidth kpts2d imgWidth cmPerPixel,
         measureUpperBody kpts2d imgHeight cmPerPixel,
         measureLowerBody kpts2d imgHeight cmPerPixel,
         measureNeckWidth kpts2d imgWidth cmPerPixel,
         measureThighWidth kpts2d imgWidth imgHeight processedImg
           segmentationMask cmPerPixel]

end Jni

/-- Claim C9: for all semi-axis values a and b,
calculateEllipseCircumference(a, b) = calculateEllipseCircumference(b, a):
the Ramanujan approximation formula is symmetric in its two arguments. -/
theorem claim_C9 (a b : ℚ) :
    MeshGen.calculateEllipseCircumference a b =
      MeshGen.calculateEllipseCircumference b a := by
  have hq : ((b - a) / (b + a)) ^ 2 = ((a - b) / (a + b)) ^ 2 := by
    rw [add_comm b a, ← neg_sub a b, neg_div, neg_sq]
  simp only [MeshGen.calculateEllipseCircumference, hq, add_comm (b : ℝ) (a : ℝ)]

/-- Claim C6: for every input whose outer list does not contain exactly 3
views, MultiView3D::triangulate returns 135 zero points (and leaves the
cached state untouched). -/
theorem claim_C6 (dlt4 : ℚ × ℚ → ℚ × ℚ → MV3D.H4) (st : MV3D.TriCache)
    (kpts2d : List (List Pt2)) (userHeight : ℚ)
    (h : kpts2d.length ≠ 3) :
    MV3D.triangulate dlt4 st kpts2d userHeight =
      (List.replicate 135 Pt3.zero, st) := by
  unfold MV3D.triangulate
  rw [if_pos h]

/-- Witness for claim C6 at a concrete degenerate input (zero views). -/
theorem claim_C6_witness :
    ([] : List (List Pt2)).length ≠ 3 ∧
      MV3D.triangulate (fun _ _ => ⟨1, 1, 1, 1⟩) MV3D.TriCache.init [] 170 =
        (List.replicate 135 Pt3.zero, MV3D.TriCache.init) :=
  ⟨by decide, claim_C6 _ _ _ _ (by decide)⟩

/-- Length of the float byte block of a point list when every float
serialises to 4 bytes. -/
theorem flatMapEnc_length (enc : ℝ → List ℕ)
    (henc : ∀ x, (enc x).length = 4) (l : List PtR) :
    (l.flatMap (fun p => enc p.x ++ enc p.y ++ enc p.z)).length =
      12 * l.length := by
  induction l with
  | nil => simp
  | cons a t ih =>
    rw [List.flatMap_cons, List.length_append, List.length_append,
      List.length_append, ih, henc, henc, henc, List.length_cons]
    ring

/-- Length of the index byte block: 4 bytes per index. -/
theorem flatMapU32_length (l : List ℕ) :
    (l.flatMap MeshGen.writeUint32LE).length = 4 * l.length := by
  induction l with
  | nil => simp
  | cons a t ih =>
    simp [List.flatMap_cons, ih, MeshGen.writeUint32LE]
    omega

/-- Length of the GLB binary payload before padding. -/
theorem glbBinaryBuffer_length (enc : ℝ → List ℕ)
    (henc : ∀ x, (enc x).length = 4) (vertices normals : List PtR)
    (indices : List ℕ) :
    (MeshGen.glbBinaryBuffer enc vertices normals indices).length =
      12 * vertices.length + 12 * normals.length + 4 * indices.length := by
  unfold MeshGen.glbBinaryBuffer
  rw [List.length_append, List.length_append,
    flatMapEnc_length enc henc, flatMapEnc_length enc henc,
    flatMapU32_length]

/-- Claim C4: for every non-empty (vertices, normals, indices) input to
the Binary Model Encoder with a 4-byte float serialisation, the buffer
byteLength written into the JSON descriptor (glbReportedBufferByteLength,
the value serialised by glbJson and emitted by createGLBManually) equals
the length of the actual BIN payload chunk after 4-byte padding, the
position accessor count equals the position buffer-view byte length
divided by 12, and the index accessor count equals the index buffer-view
byte length divided by 4. -/
theorem claim_C4 (enc : ℝ → List ℕ) (vertices normals : List PtR)
    (indices : List ℕ) (henc : ∀ x, (enc x).length = 4)
    (hv : vertices ≠ []) (hi : indices ≠ []) :
    MeshGen.glbReportedBufferByteLength enc vertices normals indices =
        (MeshGen.glbPaddedBinary enc vertices normals indices).length ∧
      MeshGen.glbVertexCount vertices =
        MeshGen.glbPosByteLength vertices / 12 ∧
      MeshGen.glbIndexCount indices =
        MeshGen.glbIdxByteLength indices / 4 := by
  have hlen := glbBinaryBuffer_length enc henc vertices normals indices
  refine ⟨?_, ?_, ?_⟩
  · unfold MeshGen.glbReportedBufferByteLength MeshGen.glbPaddedBinary
    rw [List.length_append, List.length_replicate]
    omega
  · unfold MeshGen.glbVertexCount MeshGen.glbPosByteLength
    omega
  · unfold MeshGen.glbIndexCount MeshGen.glbIdxByteLength
    omega

/-- Witness for claim C4: a single-triangle mesh with a concrete 4-byte
serialisation. -/
theorem claim_C4_witness :
    (∀ x : ℝ, ((fun _ : ℝ => [0, 0, 0, 0]) x).length = 4) ∧
      ([(⟨0, 0, 0⟩ : PtR), ⟨1, 0, 0⟩, ⟨0, 1, 0⟩] : List PtR) ≠ [] ∧
      ([0, 1, 2] : List ℕ) ≠ [] ∧
      (MeshGen.glbReportedBufferByteLength (fun _ => [0, 0, 0, 0])
          [⟨0, 0, 0⟩, ⟨1, 0, 0⟩, ⟨0, 1, 0⟩] [⟨0, 1, 0⟩] [0, 1, 2] =
        (MeshGen.glbPaddedBinary (fun _ => [0, 0, 0, 0])
          [⟨0, 0, 0⟩, ⟨1, 0, 0⟩, ⟨0, 1, 0⟩] [⟨0, 1, 0⟩] [0, 1, 2]).length ∧
      MeshGen.glbVertexCount [(⟨0, 0, 0⟩ : PtR), ⟨1, 0, 0⟩, ⟨0, 1, 0⟩] =
        MeshGen.glbPosByteLength [(⟨0, 0, 0⟩ : PtR), ⟨1, 0, 0⟩, ⟨0, 1, 0⟩] / 12 ∧
      MeshGen.glbIndexCount [0, 1, 2] =
        MeshGen.glbIdxByteLength [0, 1, 2] / 4) :=
  ⟨fun _ => rfl, by simp, by simp,
    claim_C4 (fun _ => [0, 0, 0, 0]) [⟨0, 0, 0⟩, ⟨1, 0, 0⟩, ⟨0, 1, 0⟩]
      [⟨0, 1, 0⟩] [0, 1, 2] (fun _ => rfl) (by simp) (by simp)⟩

/-- Anchor extraction reads only slots 0 through 14: two lists of length
at least 15 that agree there extract the same anchors. -/
theorem extractAnchors_congr (k1 k2 : List Pt3) (h1 : 15 ≤ k1.length)
    (h2 : 15 ≤ k2.length)
    (hagree : ∀ i, i < 15 → k1.getD i Pt3.zero = k2.getD i Pt3.zero) :
    MeshGen.extractAnchors k1 = MeshGen.extractAnchors k2 := by
  have hA : ∀ j, j < 15 → MeshGen.anchorAt k1 j = MeshGen.anchorAt k2 j := by
    intro j hj
    unfold MeshGen.anchorAt
    rw [hagree j hj]
    have e1 : (decide (j < min k1.length 25)) = true := by
      simp only [decide_eq_true_eq]
      omega
    have e2 : (decide (j < min k2.length 25)) = true := by
      simp only [decide_eq_true_eq]
      omega
    rw [e1, e2]
  unfold MeshGen.extractAnchors
  rw [hA 0 (by omega), hA 1 (by omega), hA 2 (by omega), hA 3 (by omega),
    hA 4 (by omega), hA 5 (by omega), hA 6 (by omega), hA 7 (by omega),
    hA 8 (by omega), hA 9 (by omega), hA 10 (by omega), hA 11 (by omega),
    hA 12 (by omega), hA 13 (by omega), hA 14 (by omega)]

/-- Claim C10: for any two 3D-keypoint lists of size at least 15 that
agree on indices 0 through 14 and that each contain at least 10 valid
keypoints, createFromKeypoints returns identical output: keypoint slots
15 and above never influence the generated mesh bytes. -/
theorem claim_C10 (enc : ℝ → List ℕ) (fmt : ℝ → String)
    (k1 k2 : List Pt3) (h1 : 15 ≤ k1.length) (h2 : 15 ≤ k2.length)
    (hagree : ∀ i, i < 15 → k1.getD i Pt3.zero = k2.getD i Pt3.zero)
    (hv1 : 10 ≤ MeshGen.countValidKeypoints k1)
    (hv2 : 10 ≤ MeshGen.countValidKeypoints k2) :
    MeshGen.createFromKeypoints enc fmt k1 =
      MeshGen.createFromKeypoints enc fmt k2 := by
  have hne1 : ¬(k1 = [] ∨ k1.length < 15) := by
    rintro (rfl | hlt)
    · simp at h1
    · omega
  have hne2 : ¬(k2 = [] ∨ k2.length < 15) := by
    rintro (rfl | hlt)
    · simp at h2
    · omega
  unfold MeshGen.createFromKeypoints
  rw [if_neg hne1, if_neg (by omega : ¬MeshGen.countValidKeypoints k1 < 10),
    if_neg hne2, if_neg (by omega : ¬MeshGen.countValidKeypoints k2 < 10)]
  exact congrArg _ (extractAnchors_congr k1 k2 h1 h2 hagree)

/-- Witness for claim C10: a 15-point list versus its extension by one
extra keypoint. -/
theorem claim_C10_witness :
    15 ≤ (List.replicate 15 (⟨1, 1, 1⟩ : Pt3)).length ∧
      15 ≤ (List.replicate 15 (⟨1, 1, 1⟩ : Pt3) ++ ([⟨2, 2, 2⟩] : List Pt3)).length ∧
      (∀ i, i < 15 →
        (List.replicate 15 (⟨1, 1, 1⟩ : Pt3)).getD i Pt3.zero =
          (List.replicate 15 (⟨1, 1, 1⟩ : Pt3) ++ ([⟨2, 2, 2⟩] : List Pt3)).getD i Pt3.zero) ∧
      10 ≤ MeshGen.countValidKeypoints (List.replicate 15 (⟨1, 1, 1⟩ : Pt3)) ∧
      10 ≤ MeshGen.countValidKeypoints
        (List.replicate 15 (⟨1, 1, 1⟩ : Pt3) ++ ([⟨2, 2, 2⟩] : List Pt3)) ∧
      MeshGen.createFromKeypoints (fun _ => []) (fun _ => "")
          (List.replicate 15 (⟨1, 1, 1⟩ : Pt3)) =
        MeshGen.createFromKeypoints (fun _ => []) (fun _ => "")
          (List.replicate 15 (⟨1, 1, 1⟩ : Pt3) ++ ([⟨2, 2, 2⟩] : List Pt3)) :=
  ⟨by decide, by decide, by decide, by decide, by decide,
    claim_C10 _ _ _ _ (by decide) (by decide) (by decide) (by decide)
      (by decide)⟩

/-- Failing input for claim C1: 135 keypoints whose anchor slots 0..14
are all the zero vector while slots 15..134 hold valid points, so the
input passes both entry checks (size and valid-count) and every anchor is
invalid. -/
def c1Input : List Pt3 :=
  List.replicate 15 Pt3.zero ++ List.replicate 120 ⟨1, 2, 3⟩

/-- The all-zero anchor record extracted from c1Input. -/
theorem c1_extract :
    MeshGen.extractAnchors c1Input =
      ⟨Pt3.zero, Pt3.zero, Pt3.zero, Pt3.zero, Pt3.zero, Pt3.zero, Pt3.zero,
       Pt3.zero, Pt3.zero, Pt3.zero, Pt3.zero, Pt3.zero, Pt3.zero, Pt3.zero,
       Pt3.zero⟩ := by
  set_option maxRecDepth 4000 in decide

/-- Claim C1 (divergence of the code from the claim): for an input whose
anchor keypoints are all the zero vector, createFromKeypoints returns the
EMPTY byte buffer.  Every body segment is skipped because its anchors are
invalid, the assembled vertex buffer is empty, and the early return at
mesh_generator.cpp line 700 fires before the placeholder branch at line
754 can be reached — so no placeholder humanoid and no 1.5-height
bounding box is ever produced for this input class, contrary to the
claim. -/
theorem claim_C1 (enc : ℝ → List ℕ) (fmt : ℝ → String) :
    MeshGen.createFromKeypoints enc fmt c1Input = [] := by
  unfold MeshGen.createFromKeypoints
  rw [if_neg (by set_option maxRecDepth 4000 in decide),
    if_neg (by set_option maxRecDepth 4000 in decide), c1_extract]
  unfold MeshGen.buildBody
  simp [MeshGen.isValidKeypoint, Pt3.zero]

/-- Vertical extent of a 3D keypoint list (mesh_generator.cpp line 64). -/
def heightOf (kpts3d : List Pt3) : ℚ :=
  MeshGen.maxYOf kpts3d - MeshGen.minYOf kpts3d

/-- Band-centre fraction of each Strategy A measurement slot (waist 50%,
chest 25%, hips 60%, thighs 70%, arms 30%). -/
def slotBandFraction (j : ℕ) : ℚ :=
  if j = 0 then 50 / 100
  else if j = 1 then 25 / 100
  else if j = 2 then 60 / 100
  else if j ≤ 4 then 70 / 100
  else 30 / 100

/-- Side selector of each Strategy A slot: none for the torso bands,
false (x < 0, left) or true (x > 0, right) for the limb bands. -/
def slotSide (j : ℕ) : Option Bool :=
  if j < 3 then none
  else if j = 3 ∨ j = 5 then some false
  else some true

/-- The points of slot j's band region: keypoints whose y is within
tolerance (5% of extent) of the band centre, restricted to the slot's
side, projected to the XZ plane. -/
def slotRegion (kpts3d : List Pt3) (j : ℕ) : List Pt2 :=
  let c := MeshGen.minYOf kpts3d + heightOf kpts3d * slotBandFraction j
  let tol := heightOf kpts3d * (5 / 100)
  match slotSide j with
  | none =>
    (kpts3d.filter (fun pt => |pt.y - c| < tol)).map (fun pt => ⟨pt.x, pt.z⟩)
  | some false => MeshGen.leftSidePoints kpts3d c tol
  | some true => MeshGen.rightSidePoints kpts3d c tol

/-- The value Strategy A assigns to slot j once the global checks pass:
zero when the band region has fewer than 5 points, otherwise the
Ramanujan circumference of the fitted semi-axes (with the torso slots
additionally floored at zero). -/
def slotValue (fit : List Pt2 → ℚ × ℚ) (kpts3d : List Pt3) (j : ℕ) : ℝ :=
  let pts := slotRegion kpts3d j
  if pts.length < 5 then 0
  else
    let c := MeshGen.calculateEllipseCircumference ((fit pts).1 / 2)
      ((fit pts).2 / 2)
    if j < 3 then (if 0 < c then c else 0) else c

/-- Bridge: the source's positive-part guard applied to a region value
that is zero for small regions. -/
theorem posPart_ite (p : Prop) [Decidable p] (c : ℝ) :
    (if 0 < (if p then (0 : ℝ) else c) then (if p then (0 : ℝ) else c)
      else 0) = (if p then 0 else if 0 < c then c else 0) := by
  by_cases hp : p <;> simp [hp]

/-- Bridge: the source's at-least-5 test versus the spec's fewer-than-5
test. -/
theorem side_ite (c : ℝ) (n : ℕ) :
    (if 5 ≤ n then c else 0) = (if n < 5 then 0 else c) := by
  by_cases h : 5 ≤ n
  · rw [if_pos h, if_neg (by omega)]
  · rw [if_neg h, if_pos (by omega)]

/-- Claim C8: Strategy A returns the all-zero 7-vector whenever the input
has fewer than 10 points or no positive vertical extent; and when those
checks pass, each slot is zero when its band region has fewer than 5
points and is the region's fitted circumference otherwise. -/
theorem claim_C8 (fit : List Pt2 → ℚ × ℚ) (kpts3d : List Pt3) :
    ((kpts3d.length < 10 ∨ heightOf kpts3d ≤ 0) →
      MeshGen.computeCircumferences fit kpts3d = List.replicate 7 0) ∧
    (10 ≤ kpts3d.length → 0 < heightOf kpts3d →
      ∀ j, j < 7 →
        (MeshGen.computeCircumferences fit kpts3d).getD j 0 =
          slotValue fit kpts3d j) := by
  constructor
  · intro h
    simp only [MeshGen.computeCircumferences]
    by_cases hc : kpts3d = [] ∨ kpts3d.length < 10
    · rw [if_pos hc]
    · rw [if_neg hc]
      have hh : MeshGen.maxYOf kpts3d - MeshGen.minYOf kpts3d ≤ 0 := by
        rcases h with h1 | h2
        · exact absurd (Or.inr h1) hc
        · exact h2
      rw [if_pos hh]
  · intro hlen hh j hj
    have hc : ¬(kpts3d = [] ∨ kpts3d.length < 10) := by
      rintro (rfl | hlt)
      · simp at hlen
      · omega
    have hh2 : ¬(MeshGen.maxYOf kpts3d - MeshGen.minYOf kpts3d ≤ 0) := by
      unfold heightOf at hh
      linarith
    simp only [MeshGen.computeCircumferences]
    rw [if_neg hc, if_neg hh2]
    interval_cases j
    · simp only [List.getD_cons_zero, MeshGen.fitEllipseAtY, posPart_ite,
        slotValue, slotRegion, slotSide, slotBandFraction, heightOf]
      norm_num
    · simp only [List.getD_cons_succ, List.getD_cons_zero,
        MeshGen.fitEllipseAtY, posPart_ite, slotValue, slotRegion, slotSide,
        slotBandFraction, heightOf]
      norm_num
    · simp only [List.getD_cons_succ, List.getD_cons_zero,
        MeshGen.fitEllipseAtY, posPart_ite, slotValue, slotRegion, slotSide,
        slotBandFraction, heightOf]
      norm_num
    · simp only [List.getD_cons_succ, List.getD_cons_zero,
        MeshGen.sideCircumference, side_ite, slotValue, slotRegion, slotSide,
        slotBandFraction, heightOf]
      norm_num
    · simp only [List.getD_cons_succ, List.getD_cons_zero,
        MeshGen.sideCircumference, side_ite, slotValue, slotRegion, slotSide,
        slotBandFraction, heightOf]
      norm_num
    · simp only [List.getD_cons_succ, List.getD_cons_zero,
        MeshGen.sideCircumference, side_ite, slotValue, slotRegion, slotSide,
        slotBandFraction, heightOf]
      norm_num
    · simp only [List.getD_cons_succ, List.getD_cons_zero,
        MeshGen.sideCircumference, side_ite, slotValue, slotRegion, slotSide,
        slotBandFraction, heightOf]
      norm_num

/-- Witness for claim C8 at a concrete 10-point input with positive
extent and a constant ellipse fit, checked on slot 0. -/
theorem claim_C8_witness :
    10 ≤ ([⟨0, 0, 0⟩, ⟨1, 1, 0⟩, ⟨2, 2, 0⟩, ⟨3, 3, 0⟩, ⟨4, 4, 0⟩,
        ⟨5, 5, 0⟩, ⟨6, 6, 0⟩, ⟨7, 7, 0⟩, ⟨8, 8, 0⟩, ⟨9, 9, 0⟩] :
        List Pt3).length ∧
      0 < heightOf [⟨0, 0, 0⟩, ⟨1, 1, 0⟩, ⟨2, 2, 0⟩, ⟨3, 3, 0⟩, ⟨4, 4, 0⟩,
        ⟨5, 5, 0⟩, ⟨6, 6, 0⟩, ⟨7, 7, 0⟩, ⟨8, 8, 0⟩, ⟨9, 9, 0⟩] ∧
      (0 : ℕ) < 7 ∧
      (MeshGen.computeCircumferences (fun _ => (2, 2))
          [⟨0, 0, 0⟩, ⟨1, 1, 0⟩, ⟨2, 2, 0⟩, ⟨3, 3, 0⟩, ⟨4, 4, 0⟩,
           ⟨5, 5, 0⟩, ⟨6, 6, 0⟩, ⟨7, 7, 0⟩, ⟨8, 8, 0⟩, ⟨9, 9, 0⟩]).getD 0 0 =
        slotValue (fun _ => (2, 2))
          [⟨0, 0, 0⟩, ⟨1, 1, 0⟩, ⟨2, 2, 0⟩, ⟨3, 3, 0⟩, ⟨4, 4, 0⟩,
           ⟨5, 5, 0⟩, ⟨6, 6, 0⟩, ⟨7, 7, 0⟩, ⟨8, 8, 0⟩, ⟨9, 9, 0⟩] 0 :=
  ⟨by decide, by
    norm_num [heightOf, MeshGen.maxYOf, MeshGen.minYOf], by decide,
    (claim_C8 _ _).2 (by decide)
      (by norm_num [heightOf, MeshGen.maxYOf, MeshGen.minYOf]) 0 (by decide)⟩

/-- Concrete input for the claim C3 counterexample: 33 keypoints with the
nose at (1/2, 1/10), LEFT SHOULDER (slot 11) EXACTLY AT THE ORIGIN (0,0),
the right shoulder at (3/10, 0), one ankle at (1/2, 9/10), and every
other slot out of range at (2, 2). -/
def c3Input : List Pt2 :=
  [⟨1/2, 1/10⟩, ⟨2, 2⟩, ⟨2, 2⟩, ⟨2, 2⟩,
   ⟨2, 2⟩, ⟨2, 2⟩, ⟨2, 2⟩, ⟨2, 2⟩,
   ⟨2, 2⟩, ⟨2, 2⟩, ⟨2, 2⟩, ⟨0, 0⟩,
   ⟨3/10, 0⟩, ⟨2, 2⟩, ⟨2, 2⟩, ⟨2, 2⟩,
   ⟨2, 2⟩, ⟨2, 2⟩, ⟨2, 2⟩, ⟨2, 2⟩,
   ⟨2, 2⟩, ⟨2, 2⟩, ⟨2, 2⟩, ⟨2, 2⟩,
   ⟨2, 2⟩, ⟨2, 2⟩, ⟨2, 2⟩, ⟨1/2, 9/10⟩,
   ⟨2, 2⟩, ⟨2, 2⟩, ⟨2, 2⟩, ⟨2, 2⟩,
   ⟨2, 2⟩]

/-- Concrete input for claim C5: nose at y = 1/10, shoulders 1/5 apart at
slots 11 and 12, one ankle at y = 9/10, all other slots out of range. -/
def c5Input : List Pt2 :=
  [⟨1/2, 1/10⟩, ⟨2, 2⟩, ⟨2, 2⟩, ⟨2, 2⟩,
   ⟨2, 2⟩, ⟨2, 2⟩, ⟨2, 2⟩, ⟨2, 2⟩,
   ⟨2, 2⟩, ⟨2, 2⟩, ⟨2, 2⟩, ⟨3/10, 3/10⟩,
   ⟨1/2, 3/10⟩, ⟨2, 2⟩, ⟨2, 2⟩, ⟨2, 2⟩,
   ⟨2, 2⟩, ⟨2, 2⟩, ⟨2, 2⟩, ⟨2, 2⟩,
   ⟨2, 2⟩, ⟨2, 2⟩, ⟨2, 2⟩, ⟨2, 2⟩,
   ⟨2, 2⟩, ⟨2, 2⟩, ⟨2, 2⟩, ⟨1/2, 9/10⟩,
   ⟨2, 2⟩, ⟨2, 2⟩, ⟨2, 2⟩, ⟨2, 2⟩,
   ⟨2, 2⟩]

/-- Concrete input for the claim C7 counterexample: only 4 of the 33
keypoints are valid (nose, the two shoulders 3/10 apart, one ankle); the
rest are out of range. -/
def c7Input : List Pt2 :=
  [⟨1/2, 1/10⟩, ⟨2, 2⟩, ⟨2, 2⟩, ⟨2, 2⟩,
   ⟨2, 2⟩, ⟨2, 2⟩, ⟨2, 2⟩, ⟨2, 2⟩,
   ⟨2, 2⟩, ⟨2, 2⟩, ⟨2, 2⟩, ⟨3/10, 3/10⟩,
   ⟨3/5, 3/10⟩, ⟨2, 2⟩, ⟨2, 2⟩, ⟨2, 2⟩,
   ⟨2, 2⟩, ⟨2, 2⟩, ⟨2, 2⟩, ⟨2, 2⟩,
   ⟨2, 2⟩, ⟨2, 2⟩, ⟨2, 2⟩, ⟨2, 2⟩,
   ⟨2, 2⟩, ⟨2, 2⟩, ⟨2, 2⟩, ⟨1/2, 9/10⟩,
   ⟨2, 2⟩, ⟨2, 2⟩, ⟨2, 2⟩, ⟨2, 2⟩,
   ⟨2, 2⟩]

/-- Strategy B reduced to its shoulder-width slot: when the three entry
checks pass, slot 0 of the result is measureShoulderWidth at the computed
cm-per-pixel factor. -/
theorem slot0_eval (kpts : List Pt2) (uh : ℚ) (w h : ℤ)
    (img : Option (ℤ × ℤ)) (mask : Option Jni.Mask)
    (hguard : ¬(kpts = [] ∨ kpts.length < 33 ∨ uh ≤ 0 ∨ 300 < uh ∨
      w ≤ 0 ∨ h ≤ 0))
    (hbody : ¬(Jni.feetYOf kpts - Jni.headYOf kpts ≤ 0 ∨
      Jni.hasHead kpts = false))
    (hpix : ¬((Jni.feetYOf kpts - Jni.headYOf kpts) * (h : ℚ) ≤ 0)) :
    (Jni.computeMeasurementsFrom2D kpts uh w h img mask).getD 0 0 =
      Jni.measureShoulderWidth kpts w
        (uh / ((Jni.feetYOf kpts - Jni.headYOf kpts) * (h : ℚ))) := by
  simp only [Jni.computeMeasurementsFrom2D]
  rw [if_neg hguard, if_neg hbody, if_neg hpix]
  rfl

/-- The shoulder-width slot at valid shoulder keypoints. -/
theorem measureShoulderWidth_eval (kpts : List Pt2) (w : ℤ) (cm : ℚ)
    (p q : Pt2) (h11 : Jni.kp kpts 11 = p) (h12 : Jni.kp kpts 12 = q)
    (hcond : (decide (12 < kpts.length) && Jni.isValidKeypoint p &&
      Jni.isValidKeypoint q) = true) :
    Jni.measureShoulderWidth kpts w cm =
      Jni.validateMeasurement
        (Jni.keypointDistance p q * (w : ℝ) * (cm : ℝ)) 30 60 := by
  unfold Jni.measureShoulderWidth
  rw [h11, h12, if_pos hcond]

/-- Distance between two keypoints on a common horizontal line. -/
theorem keypointDistance_horizontal (x1 x2 y : ℚ) (hle : x1 ≤ x2) :
    Jni.keypointDistance ⟨x1, y⟩ ⟨x2, y⟩ = ((x2 - x1 : ℚ) : ℝ) := by
  unfold Jni.keypointDistance
  have harg : ((x2 - x1) * (x2 - x1) + (y - y) * (y - y) : ℚ) =
      (x2 - x1) ^ 2 := by ring
  rw [harg]
  rw [show (((x2 - x1 : ℚ) ^ 2 : ℚ) : ℝ) = ((x2 - x1 : ℚ) : ℝ) ^ 2 by
    push_cast
    ring]
  exact Real.sqrt_sq (by exact_mod_cast sub_nonneg.mpr hle)

theorem c3_feet : Jni.feetYOf c3Input = 9/10 := by
  norm_num [Jni.feetYOf, Jni.hasFeet, Jni.feetIdx, Jni.feetYFromFeet,
    Jni.kp, Jni.isValidKeypoint, c3Input, List.range_succ]

theorem c3_head : Jni.headYOf c3Input = 1/10 := by
  norm_num [Jni.headYOf, Jni.kp, Jni.isValidKeypoint, c3Input]

theorem c3_hashead : Jni.hasHead c3Input = true := by
  norm_num [Jni.hasHead, Jni.kp, Jni.isValidKeypoint, c3Input]

theorem c3_slot0 :
    (Jni.computeMeasurementsFrom2D c3Input 170 640 1000 none none).getD 0 0 =
      (204 : ℝ) / 5 := by
  rw [slot0_eval c3Input 170 640 1000 none none (by decide)
    (by rw [c3_feet, c3_head, c3_hashead]; norm_num)
    (by rw [c3_feet, c3_head]; norm_num)]
  rw [c3_feet, c3_head]
  rw [measureShoulderWidth_eval c3Input 640 _ ⟨0, 0⟩ ⟨3/10, 0⟩ rfl rfl
    (by norm_num [c3Input, Jni.isValidKeypoint])]
  rw [keypointDistance_horizontal 0 (3/10) 0 (by norm_num)]
  unfold Jni.validateMeasurement
  rw [if_neg (by push_cast; norm_num)]
  push_cast
  norm_num

/-- Claim C3 counterexample: the claim is false on the code.  In c3Input
the left-shoulder keypoint (slot 11) is exactly (0, 0) — within any
tolerance of the origin — yet Strategy B does not exclude it: the
shoulder-width slot is computed FROM it and comes out 40.8 cm (nonzero),
so the origin point was used as a valid location, not treated as
undetected. -/
theorem claim_C3_counterexample :
    Jni.kp c3Input 11 = ⟨0, 0⟩ ∧
      (Jni.computeMeasurementsFrom2D c3Input 170 640 1000 none none).getD 0
          0 = (204 : ℝ) / 5 :=
  ⟨rfl, c3_slot0⟩

/-- Claim C3 amended: Strategy B's validity test excludes a 2D keypoint
exactly when one of its coordinates lies outside [0, 1]; the point (0, 0)
passes the test and participates in measurements as a location at the
origin (witnessed by the nonzero shoulder-width slot computed from an
origin shoulder keypoint). -/
theorem claim_C3_amended :
    (∀ p : Pt2, Jni.isValidKeypoint p = false ↔
      (p.x < 0 ∨ 1 < p.x ∨ p.y < 0 ∨ 1 < p.y)) ∧
      Jni.isValidKeypoint ⟨0, 0⟩ = true ∧
      (Jni.computeMeasurementsFrom2D c3Input 170 640 1000 none none).getD 0
          0 ≠ 0 := by
  refine ⟨?_, by decide, ?_⟩
  · intro p
    simp only [Jni.isValidKeypoint, Bool.and_eq_false_iff,
      decide_eq_false_iff_not, not_le]
    tauto
  · rw [c3_slot0]
    norm_num

theorem c5_feet : Jni.feetYOf c5Input = 9/10 := by
  norm_num [Jni.feetYOf, Jni.hasFeet, Jni.feetIdx, Jni.feetYFromFeet,
    Jni.kp, Jni.isValidKeypoint, c5Input, List.range_succ]

theorem c5_head : Jni.headYOf c5Input = 1/10 := by
  norm_num [Jni.headYOf, Jni.kp, Jni.isValidKeypoint, c5Input]

theorem c5_hashead : Jni.hasHead c5Input = true := by
  norm_num [Jni.hasHead, Jni.kp, Jni.isValidKeypoint, c5Input]

/-- Claim C5: in the Strategy B boundary-clamp scenario (nose at y = 0.1,
lowest foot at y = 0.9, image 640x1000, reference height 170, shoulders
0.2 apart), the shoulder distance is 0.2, the raw shoulder width is
128 px × 0.2125 cm/px = 27.2 cm = 136/5, which falls below the 30 cm
clamp, and slot 0 of the returned measurement vector is 0. -/
theorem claim_C5 :
    Jni.keypointDistance (Jni.kp c5Input 11) (Jni.kp c5Input 12) =
        (1 : ℝ) / 5 ∧
      Jni.validateMeasurement ((136 : ℝ) / 5) 30 60 = 0 ∧
      (Jni.computeMeasurementsFrom2D c5Input 170 640 1000 none none).getD 0
          0 = 0 := by
  refine ⟨?_, ?_, ?_⟩
  · rw [show Jni.kp c5Input 11 = ⟨3/10, 3/10⟩ from rfl,
      show Jni.kp c5Input 12 = ⟨1/2, 3/10⟩ from rfl,
      keypointDistance_horizontal (3/10) (1/2) (3/10) (by norm_num)]
    norm_num
  · unfold Jni.validateMeasurement
    rw [if_pos (by norm_num)]
  · rw [slot0_eval c5Input 170 640 1000 none none (by decide)
      (by rw [c5_feet, c5_head, c5_hashead]; norm_num)
      (by rw [c5_feet, c5_head]; norm_num)]
    rw [c5_feet, c5_head]
    rw [measureShoulderWidth_eval c5Input 640 _ ⟨3/10, 3/10⟩ ⟨1/2, 3/10⟩
      rfl rfl (by norm_num [c5Input, Jni.isValidKeypoint])]
    rw [keypointDistance_horizontal (3/10) (1/2) (3/10) (by norm_num)]
    unfold Jni.validateMeasurement
    rw [if_pos (by push_cast; norm_num)]

theorem c7_feet : Jni.feetYOf c7Input = 9/10 := by
  norm_num [Jni.feetYOf, Jni.hasFeet, Jni.feetIdx, Jni.feetYFromFeet,
    Jni.kp, Jni.isValidKeypoint, c7Input, List.range_succ]

theorem c7_head : Jni.headYOf c7Input = 1/10 := by
  norm_num [Jni.headYOf, Jni.kp, Jni.isValidKeypoint, c7Input]

theorem c7_hashead : Jni.hasHead c7Input = true := by
  norm_num [Jni.hasHead, Jni.kp, Jni.isValidKeypoint, c7Input]

theorem c7_slot0 :
    (Jni.computeMeasurementsFrom2D c7Input 170 640 1000 none none).getD 0 0 =
      (204 : ℝ) / 5 := by
  rw [slot0_eval c7Input 170 640 1000 none none (by decide)
    (by rw [c7_feet, c7_head, c7_hashead]; norm_num)
    (by rw [c7_feet, c7_head]; norm_num)]
  rw [c7_feet, c7_head]
  rw [measureShoulderWidth_eval c7Input 640 _ ⟨3/10, 3/10⟩ ⟨3/5, 3/10⟩
    rfl rfl (by norm_num [c7Input, Jni.isValidKeypoint])]
  rw [keypointDistance_horizontal (3/10) (3/5) (3/10) (by norm_num)]
  unfold Jni.validateMeasurement
  rw [if_neg (by push_cast; norm_num)]
  push_cast
  norm_num

/-- Claim C7 counterexample: the claim is false on the code.  c7Input has
33 entries but only 4 VALID keypoints — fewer than 33 — yet Strategy B
does not return the all-zero vector: it proceeds (the code checks only
the list SIZE against 33) and produces a nonzero shoulder width. -/
theorem claim_C7_counterexample :
    c7Input.countP (fun p => Jni.isValidKeypoint p) = 4 ∧
      Jni.computeMeasurementsFrom2D c7Input 170 640 1000 none none ≠
        List.replicate 8 0 := by
  constructor
  · norm_num [c7Input, Jni.isValidKeypoint, List.countP_cons]
  · intro hEq
    have h0 : (Jni.computeMeasurementsFrom2D c7Input 170 640 1000 none
        none).getD 0 0 = (List.replicate 8 (0 : ℝ)).getD 0 0 := by
      rw [hEq]
    rw [c7_slot0, show (List.replicate 8 (0 : ℝ)).getD 0 0 = 0 from rfl]
      at h0
    norm_num at h0

/-- Claim C7 amended: Strategy B returns the all-zero 8-vector whenever
the keypoint LIST has fewer than 33 entries (the code checks the raw
size, not the number of valid keypoints), or the reference height is
non-positive or above 300, or an image dimension is non-positive. -/
theorem claim_C7 (kpts2d : List Pt2) (userHeight : ℚ)
    (imgWidth imgHeight : ℤ) (img : Option (ℤ × ℤ))
    (mask : Option Jni.Mask)
    (h : kpts2d.length < 33 ∨ userHeight ≤ 0 ∨ 300 < userHeight ∨
      imgWidth ≤ 0 ∨ imgHeight ≤ 0) :
    Jni.computeMeasurementsFrom2D kpts2d userHeight imgWidth imgHeight img
      mask = List.replicate 8 0 := by
  simp only [Jni.computeMeasurementsFrom2D]
  rw [if_pos (by tauto)]

/-- Witness for the amended claim C7 at the empty keypoint list. -/
theorem claim_C7_witness :
    (([] : List Pt2).length < 33 ∨ (170 : ℚ) ≤ 0 ∨ 300 < (170 : ℚ) ∨
        (640 : ℤ) ≤ 0 ∨ (1000 : ℤ) ≤ 0) ∧
      Jni.computeMeasurementsFrom2D [] 170 640 1000 none none =
        List.replicate 8 0 :=
  ⟨by decide, claim_C7 [] 170 640 1000 none none (by decide)⟩

/-- A fold whose steps all append a zero point. -/
theorem foldl_pushZero
    (g : List Pt3 × MV3D.TriCache → ℕ → List Pt3 × MV3D.TriCache)
    (l : List ℕ)
    (hg : ∀ acc i, i ∈ l → g acc i = (acc.1 ++ [Pt3.zero], acc.2)) :
    ∀ acc, l.foldl g acc =
      (acc.1 ++ List.replicate l.length Pt3.zero, acc.2) := by
  induction l with
  | nil =>
    intro acc
    simp
  | cons a t ih =>
    intro acc
    rw [List.foldl_cons, hg acc a (List.mem_cons_self a t),
      ih (fun acc2 i hi => hg acc2 i (List.mem_cons_of_mem a hi))]
    simp [List.replicate_succ]

/-- Updating an already-computed cache is the identity (the source's
`if (!scaleComputed ...)` guard). -/
theorem computeScaleUpdate_of_computed (v : List Pt2) (h : ℚ)
    (c : MV3D.TriCache) (hc : c.scaleComputed = true) :
    MV3D.computeScaleUpdate v h c = c := by
  unfold MV3D.computeScaleUpdate
  rw [if_neg (by simp [hc])]

/-- The scale update either leaves the cache unchanged or marks it
computed. -/
theorem computeScaleUpdate_cases (v : List Pt2) (h : ℚ)
    (c : MV3D.TriCache) :
    MV3D.computeScaleUpdate v h c = c ∨
      (MV3D.computeScaleUpdate v h c).scaleComputed = true := by
  unfold MV3D.computeScaleUpdate
  by_cases hc : c.scaleComputed = false ∧ 0 < h
  · right
    rw [if_pos hc]
    rcases e1 : (MV3D.scaleScanYs v).min? with _ | mn <;>
      rcases e2 : (MV3D.scaleScanYs v).max? with _ | mx <;>
        simp only [e1, e2] <;> try rfl
    split_ifs <;> rfl
  · left
    rw [if_neg hc]

/-- The per-iteration scale update of the source loop is idempotent, so
every iteration after the first sees the same cache. -/
theorem computeScaleUpdate_idem (v : List Pt2) (h : ℚ)
    (c : MV3D.TriCache) :
    MV3D.computeScaleUpdate v h (MV3D.computeScaleUpdate v h c) =
      MV3D.computeScaleUpdate v h c := by
  rcases computeScaleUpdate_cases v h c with he | ht
  · rw [he]
    exact he
  · exact computeScaleUpdate_of_computed v h _ ht

/-- One camera view used in the claim C2 scenario: two keypoints at
normalized (1/2, 1/10) and (1/2, 1/2), giving the first-50-point scan a
y-extent of 2/5 and hence estimatedHeight3D = 80. -/
def c2View : List Pt2 := [⟨1/2, 1/10⟩, ⟨1/2, 1/2⟩]

/-- Three identical views for the claim C2 scenario. -/
def c2Input : List (List Pt2) := [c2View, c2View, c2View]

/-- The 3D point triangulate emits for one keypoint of the C2 scenario
(both views hold the same point p) under cache c: dehomogenise the
abstract dlt4 result and scale by the cache's factor with the vertical
flip. -/
def c2Point (dlt4 : ℚ × ℚ → ℚ × ℚ → MV3D.H4) (p : Pt2)
    (c : MV3D.TriCache) : Pt3 :=
  let q := dlt4 (p.x * 640, p.y * 480) (p.x * 640, p.y * 480)
  let point3d : Pt3 :=
    if q.w ≠ 0 then ⟨q.x / q.w, q.y / q.w, q.z / q.w⟩ else Pt3.zero
  ⟨point3d.x * c.scaleFactor, -(point3d.y * c.scaleFactor),
    point3d.z * c.scaleFactor⟩

/-- Evaluation of triangulate on the C2 scenario: the first two keypoints
are triangulated and scaled with the updated cache, the remaining 133
are zero, and the updated cache is returned. -/
theorem triangulate_c2 (dlt4 : ℚ × ℚ → ℚ × ℚ → MV3D.H4)
    (st : MV3D.TriCache) (h : ℚ) :
    MV3D.triangulate dlt4 st c2Input h =
      ([c2Point dlt4 ⟨1/2, 1/10⟩ (MV3D.computeScaleUpdate c2View h st),
        c2Point dlt4 ⟨1/2, 1/2⟩ (MV3D.computeScaleUpdate c2View h st)] ++
          List.replicate 133 Pt3.zero,
        MV3D.computeScaleUpdate c2View h st) := by
  have hrange : List.range 135 = 0 :: 1 :: List.range' 2 133 := by
    rw [List.range_eq_range']
    rfl
  unfold MV3D.triangulate
  rw [if_neg (by decide), hrange]
  simp only [show c2Input.getD 0 ([] : List Pt2) = c2View from rfl,
    show c2Input.getD 1 ([] : List Pt2) = c2View from rfl]
  rw [List.foldl_cons, List.foldl_cons]
  simp only [show (c2Input.all (fun v => decide (0 < v.length))) = true from
      by decide,
    show (c2Input.all (fun v => decide (1 < v.length))) = true from by decide,
    show c2View.getD 0 Pt2.zero = ⟨1/2, 1/10⟩ from rfl,
    show c2View.getD 1 Pt2.zero = ⟨1/2, 1/2⟩ from rfl,
    if_true, computeScaleUpdate_idem]
  rw [foldl_pushZero _ _ ?hg]
  case hg =>
    intro acc i hi
    have h2 : 2 ≤ i := by
      have := List.mem_range'.mp hi
      omega
    rw [if_neg (by simp [c2Input, c2View]; omega)]
  simp only [List.length_range', List.nil_append, List.append_assoc,
    List.singleton_append]
  rfl

theorem c2_scan : MV3D.scaleScanYs c2View = [1/10, 1/2] := by
  norm_num [MV3D.scaleScanYs, c2View]

theorem c2_cache_100 :
    MV3D.computeScaleUpdate c2View 100 MV3D.TriCache.init =
      ⟨true, 5/4⟩ := by
  unfold MV3D.computeScaleUpdate
  rw [if_pos (by exact ⟨rfl, by norm_num⟩)]
  rw [c2_scan]
  rw [show ([1/10, 1/2] : List ℚ).min? = some (1/10) from by
      simp [List.min?]
      norm_num,
    show ([1/10, 1/2] : List ℚ).max? = some (1/2) from by
      simp [List.max?]
      norm_num]
  simp only []
  rw [if_pos (by norm_num), if_pos (by norm_num)]
  simp only [MV3D.TriCache.mk.injEq]
  rw [show |(1 : ℚ) / 2 - 1 / 10| = 2 / 5 from by
    rw [show (1 : ℚ) / 2 - 1 / 10 = 2 / 5 by norm_num]
    exact abs_of_pos (by norm_num)]
  norm_num

theorem c2_cache_200 :
    MV3D.computeScaleUpdate c2View 200 MV3D.TriCache.init =
      ⟨true, 5/2⟩ := by
  unfold MV3D.computeScaleUpdate
  rw [if_pos (by exact ⟨rfl, by norm_num⟩)]
  rw [c2_scan]
  rw [show ([1/10, 1/2] : List ℚ).min? = some (1/10) from by
      simp [List.min?]
      norm_num,
    show ([1/10, 1/2] : List ℚ).max? = some (1/2) from by
      simp [List.max?]
      norm_num]
  simp only []
  rw [if_pos (by norm_num), if_pos (by norm_num)]
  simp only [MV3D.TriCache.mk.injEq]
  rw [show |(1 : ℚ) / 2 - 1 / 10| = 2 / 5 from by
    rw [show (1 : ℚ) / 2 - 1 / 10 = 2 / 5 by norm_num]
    exact abs_of_pos (by norm_num)]
  norm_num

/-- Claim C2 (divergence of the code from the claim): the scale factor is
cached in process-wide statics, not recomputed per call.  Failing input:
call triangulate on c2Input with reference height 100 (caching factor
100/80 = 5/4), then call it again with identical keypoints and height
200.  The second call still uses the stale factor 5/4 instead of
200/80 = 5/2, and its output differs from the output of the very same
call made from the initial state — provided the abstract triangulation
kernel gives keypoint 0 a nonzero dehomogenised point. -/
theorem claim_C2 (dlt4 : ℚ × ℚ → ℚ × ℚ → MV3D.H4)
    (hw : (dlt4 (320, 48) (320, 48)).w ≠ 0)
    (hp : ¬((dlt4 (320, 48) (320, 48)).x = 0 ∧
      (dlt4 (320, 48) (320, 48)).y = 0 ∧
      (dlt4 (320, 48) (320, 48)).z = 0)) :
    (MV3D.triangulate dlt4
        (MV3D.triangulate dlt4 MV3D.TriCache.init c2Input 100).2 c2Input
        200).2 = ⟨true, 5/4⟩ ∧
      (MV3D.triangulate dlt4 MV3D.TriCache.init c2Input 200).2 =
        ⟨true, 5/2⟩ ∧
      (MV3D.triangulate dlt4
          (MV3D.triangulate dlt4 MV3D.TriCache.init c2Input 100).2 c2Input
          200).1 ≠
        (MV3D.triangulate dlt4 MV3D.TriCache.init c2Input 200).1 := by
  have h1 : (MV3D.triangulate dlt4 MV3D.TriCache.init c2Input 100).2 =
      ⟨true, 5/4⟩ := by
    rw [triangulate_c2]
    exact c2_cache_100
  have hupd : MV3D.computeScaleUpdate c2View 200
      (⟨true, 5/4⟩ : MV3D.TriCache) = ⟨true, 5/4⟩ :=
    computeScaleUpdate_of_computed _ _ _ rfl
  have h2 : (MV3D.triangulate dlt4
      (MV3D.triangulate dlt4 MV3D.TriCache.init c2Input 100).2 c2Input
      200).2 = ⟨true, 5/4⟩ := by
    rw [h1, triangulate_c2, hupd]
  have h3 : (MV3D.triangulate dlt4 MV3D.TriCache.init c2Input 200).2 =
      ⟨true, 5/2⟩ := by
    rw [triangulate_c2]
    exact c2_cache_200
  refine ⟨h2, h3, ?_⟩
  intro hEq
  have hA : (MV3D.triangulate dlt4
      (MV3D.triangulate dlt4 MV3D.TriCache.init c2Input 100).2 c2Input
      200).1 =
      [c2Point dlt4 ⟨1/2, 1/10⟩ ⟨true, 5/4⟩,
       c2Point dlt4 ⟨1/2, 1/2⟩ ⟨true, 5/4⟩] ++
        List.replicate 133 Pt3.zero := by
    rw [h1, triangulate_c2, hupd]
  have hB : (MV3D.triangulate dlt4 MV3D.TriCache.init c2Input 200).1 =
      [c2Point dlt4 ⟨1/2, 1/10⟩ ⟨true, 5/2⟩,
       c2Point dlt4 ⟨1/2, 1/2⟩ ⟨true, 5/2⟩] ++
        List.replicate 133 Pt3.zero := by
    rw [triangulate_c2, c2_cache_200]
  rw [hA, hB] at hEq
  have hfst : c2Point dlt4 ⟨1/2, 1/10⟩ ⟨true, 5/4⟩ =
      c2Point dlt4 ⟨1/2, 1/10⟩ ⟨true, 5/2⟩ := by
    have h0 := congrArg (fun l => l.getD 0 Pt3.zero) hEq
    simpa using h0
  simp only [c2Point] at hfst
  rw [show ((1 : ℚ)/2 * 640) = 320 by norm_num,
    show ((1 : ℚ)/10 * 480) = 48 by norm_num] at hfst
  rw [if_pos hw] at hfst
  simp only [Pt3.mk.injEq] at hfst
  obtain ⟨hx, hy, hz⟩ := hfst
  have hx0 : (dlt4 (320, 48) (320, 48)).x / (dlt4 (320, 48) (320, 48)).w =
      0 := by
    linarith
  have hy0 : (dlt4 (320, 48) (320, 48)).y / (dlt4 (320, 48) (320, 48)).w =
      0 := by
    linarith
  have hz0 : (dlt4 (320, 48) (320, 48)).z / (dlt4 (320, 48) (320, 48)).w =
      0 := by
    linarith
  refine hp ⟨?_, ?_, ?_⟩
  · rcases div_eq_zero_iff.mp hx0 with h | h
    · exact h
    · exact absurd h hw
  · rcases div_eq_zero_iff.mp hy0 with h | h
    · exact h
    · exact absurd h hw
  · rcases div_eq_zero_iff.mp hz0 with h | h
    · exact h
    · exact absurd h hw

/-- Witness for claim C2 at the constant triangulation kernel that
returns the homogeneous vector (1, 1, 1, 1). -/
theorem claim_C2_witness :
    ((((fun _ _ => ⟨1, 1, 1, 1⟩) : ℚ × ℚ → ℚ × ℚ → MV3D.H4)
        (320, 48) (320, 48)).w ≠ 0) ∧
      (¬((((fun _ _ => ⟨1, 1, 1, 1⟩) : ℚ × ℚ → ℚ × ℚ → MV3D.H4)
          (320, 48) (320, 48)).x = 0 ∧
        (((fun _ _ => ⟨1, 1, 1, 1⟩) : ℚ × ℚ → ℚ × ℚ → MV3D.H4)
          (320, 48) (320, 48)).y = 0 ∧
        (((fun _ _ => ⟨1, 1, 1, 1⟩) : ℚ × ℚ → ℚ × ℚ → MV3D.H4)
          (320, 48) (320, 48)).z = 0)) ∧
      ((MV3D.triangulate (fun _ _ => ⟨1, 1, 1, 1⟩)
          (MV3D.triangulate (fun _ _ => ⟨1, 1, 1, 1⟩) MV3D.TriCache.init
            c2Input 100).2 c2Input 200).2 = ⟨true, 5/4⟩ ∧
        (MV3D.triangulate (fun _ _ => ⟨1, 1, 1, 1⟩) MV3D.TriCache.init
          c2Input 200).2 = ⟨true, 5/2⟩ ∧
        (MV3D.triangulate (fun _ _ => ⟨1, 1, 1, 1⟩)
            (MV3D.triangulate (fun _ _ => ⟨1, 1, 1, 1⟩) MV3D.TriCache.init
              c2Input 100).2 c2Input 200).1 ≠
          (MV3D.triangulate (fun _ _ => ⟨1, 1, 1, 1⟩) MV3D.TriCache.init
            c2Input 200).1) :=
  ⟨by norm_num, by norm_num,
    claim_C2 (fun _ _ => ⟨1, 1, 1, 1⟩) (by norm_num) (by norm_num)⟩
